import Mathlib

/-!
Shallow embedding of the rpi-lgpio compatibility shim (src/RPi/GPIO/__init__.py).

The Python module keeps process-wide mutable globals (`_mode`, `_chip`,
`_warnings`, `_alerts`) and talks to the external `lgpio` C library binding.
Here the globals become an explicit `GState` record threaded through every
operation, Python exceptions become an `Err` sum carried by an
exception-plus-state monad `M`, and the external lgpio binding is modelled
as a small kernel-state record (per-line claim bits, level, debounce and
PWM setting) whose operations raise `Err.lg` on failure, matching the
default raise-on-negative behaviour of the lgpio Python binding.

Leading underscores of Python names are dropped (`_BOARD_MAP` becomes
`BOARD_MAP`, `_to_gpio` becomes `to_gpio`, and so on).
-/

namespace RpiLgpio

/-! ### Constants from the source module -/

def UNKNOWN : Int := -1
def BOARD : Int := 10
def BCM : Int := 11

def PUD_OFF : Int := 20
def PUD_DOWN : Int := 21
def PUD_UP : Int := 22

def OUT : Int := 0
def IN : Int := 1
def LOW : Int := 0
def HIGH : Int := 1

def RISING : Int := 31
def FALLING : Int := 32
def BOTH : Int := 33

/-- LG mode constant `_LG_INPUT` (0x100). -/
def LG_INPUT : Nat := 0x100
/-- LG mode constant `_LG_OUTPUT` (0x200). -/
def LG_OUTPUT : Nat := 0x200
/-- LG mode constant `_LG_ALERT` (0x400). -/
def LG_ALERT : Nat := 0x400
/-- LG mode constant `_LG_GROUP` (0x800). -/
def LG_GROUP : Nat := 0x800
/-- LG mode constant `_LG_MODES` (the four claim bits). -/
def LG_MODES : Nat := LG_INPUT ||| LG_OUTPUT ||| LG_ALERT ||| LG_GROUP
/-- LG pull report/request bits, as in the source (`_LG_PULL_UP` etc.). -/
def LG_PULL_UP : Nat := 0x20
def LG_PULL_DOWN : Nat := 0x40
def LG_PULL_NONE : Nat := 0x80
def LG_PULLS : Nat := LG_PULL_UP ||| LG_PULL_DOWN ||| LG_PULL_NONE

/-- lgpio binding constant `SET_PULL_NONE`; modelled as the corresponding
report bit, which is how it surfaces via `gpio_get_mode`. -/
def SET_PULL_NONE : Nat := LG_PULL_NONE
def SET_PULL_UP : Nat := LG_PULL_UP
def SET_PULL_DOWN : Nat := LG_PULL_DOWN

/-- lgpio binding edge constants (`lgpio.RISING_EDGE` = 1,
`lgpio.FALLING_EDGE` = 2, `lgpio.BOTH_EDGES` = 3). These are distinct from
the RPi-level constants `RISING`/`FALLING`/`BOTH` (31/32/33). -/
def RISING_EDGE : Int := 1
def FALLING_EDGE : Int := 2
def BOTH_EDGES : Int := 3

/-! ### Errors

Python exception classes raised by the module, with their messages. -/

inductive Err where
  /-- Python `RuntimeError` with message. -/
  | runtime (msg : String)
  /-- Python `ValueError` with message. -/
  | value (msg : String)
  /-- Python `TypeError`. -/
  | typeErr (msg : String)
  /-- Python `KeyError`. -/
  | keyErr
  /-- Python `NameError` (an undefined name was evaluated). -/
  | nameErr (msg : String)
  /-- `lgpio.error` raised by the external binding on a failed kernel call. -/
  | lg (msg : String)
  /-- Python `AssertionError` from a failed `assert`. -/
  | assertFail
  deriving Repr, DecidableEq

/-! ### Kernel (external lgpio library) model -/

/-- Kernel-side per-line state as seen through the lgpio binding. -/
structure KLine where
  /-- Claim/flag bits reported by `lgpio.gpio_get_mode` (LG_INPUT,
  LG_OUTPUT, LG_ALERT, pull bits). -/
  modeBits : Nat
  /-- Current electrical level of the line. -/
  level : Bool
  /-- Debounce in microseconds, set by `gpio_set_debounce_micros`. -/
  debounceMicros : Int
  /-- Last PWM (frequency, duty-cycle) programmed by `tx_pwm`, if any. -/
  pwm : Option (Rat × Rat)
  /-- Edge-detection code for an alert claim (1 rising, 2 falling, 3 both,
  0 none), exposed at bits 17-18 of the mode word on gpiochip API2. -/
  edgeCode : Nat
  deriving Repr, DecidableEq

/-- A line that has never been claimed. -/
def KLine.free (lvl : Bool) : KLine :=
  { modeBits := 0, level := lvl, debounceMicros := 0, pwm := none, edgeCode := 0 }

/-- Kernel GPIO chip state. `isOpen` models `_chip is not None` (the module
opens exactly one chip handle). `api2` tells whether the kernel exposes the
live edge configuration (gpiochip API2) or not (API1). -/
structure Kernel where
  isOpen : Bool
  api2 : Bool
  lines : Nat → KLine

/-! ### Module state and monad -/

/-- `_Alert`: per-line record held in the `_alerts` dict. User callbacks are
opaque and identified by numbers; the internal one-shot callback appended by
`wait_for_edge` gets id 0. -/
structure Alert where
  gpio : Nat
  /-- `_edge`: the RPi edge constant the alert was created with. -/
  edgeStored : Int
  /-- `bouncetime` in milliseconds, if any. -/
  bouncetime : Option Int
  /-- `callbacks`: the ordered list of registered callbacks. -/
  callbacks : List Nat
  /-- `_detected`: the edge-detected flag. -/
  detectedFlag : Bool
  deriving Repr, DecidableEq

/-- The process-wide mutable state of the module: the globals `_mode`,
`_warnings` and `_alerts`, plus the kernel state behind `_chip`
(`kernel.isOpen` models `_chip is not None`). -/
structure GState where
  mode : Int
  warningsOn : Bool
  alerts : Nat → Option Alert
  kernel : Kernel

/-- Exception-plus-state monad: Python state mutations persist even when an
exception is raised, so the state is returned in both outcomes. -/
def M (α : Type) : Type := GState → Except Err α × GState

instance : Monad M where
  pure a := fun s => (Except.ok a, s)
  bind x f := fun s =>
    match x s with
    | (Except.ok a, s2) => f a s2
    | (Except.error e, s2) => (Except.error e, s2)

/-- Raise a Python exception. -/
def mraise {α : Type} (e : Err) : M α := fun s => (Except.error e, s)

/-- Read the module state. -/
def getS : M GState := fun s => (Except.ok s, s)

/-- Update the module state. -/
def modifyS (f : GState → GState) : M Unit := fun s => (Except.ok (), f s)

/-- Lift a pure fallible computation. -/
def liftE {α : Type} (e : Except Err α) : M α := fun s => (e, s)

/-- `try ... except KeyError: ...` -/
def catchKey {α : Type} (x : M α) (handler : M α) : M α := fun s =>
  match x s with
  | (Except.error Err.keyErr, s2) => handler s2
  | r => r

/-- `try ... except lgpio.error: ...` -/
def catchLg {α : Type} (x : M α) (handler : M α) : M α := fun s =>
  match x s with
  | (Except.error (Err.lg _), s2) => handler s2
  | r => r

@[simp] theorem M_pure_apply {α : Type} (a : α) (s : GState) :
    (pure a : M α) s = (Except.ok a, s) := rfl

@[simp] theorem M_bind_apply {α β : Type} (x : M α) (f : α → M β) (s : GState) :
    (x >>= f) s =
      match x s with
      | (Except.ok a, s2) => f a s2
      | (Except.error e, s2) => (Except.error e, s2) := rfl

@[simp] theorem M_mraise_apply {α : Type} (e : Err) (s : GState) :
    (mraise e : M α) s = (Except.error e, s) := rfl

@[simp] theorem M_getS_apply (s : GState) : getS s = (Except.ok s, s) := rfl

@[simp] theorem M_modifyS_apply (f : GState → GState) (s : GState) :
    modifyS f s = (Except.ok (), f s) := rfl

@[simp] theorem M_liftE_apply {α : Type} (e : Except Err α) (s : GState) :
    liftE e s = (e, s) := rfl

/-- Step a bind whose first action is known to succeed. -/
theorem bind_ok {α β : Type} {x : M α} {s s2 : GState} {a : α}
    (f : α → M β) (h : x s = (Except.ok a, s2)) : (x >>= f) s = f a s2 := by
  show (match x s with
    | (Except.ok a, s2) => f a s2
    | (Except.error e, s2) => (Except.error e, s2)) = f a s2
  rw [h]

/-- Step a bind whose first action is known to fail. -/
theorem bind_err {α β : Type} {x : M α} {s s2 : GState} {e : Err}
    (f : α → M β) (h : x s = (Except.error e, s2)) :
    (x >>= f) s = (Except.error e, s2) := by
  show (match x s with
    | (Except.ok a, s2) => f a s2
    | (Except.error e, s2) => (Except.error e, s2)) = (Except.error e, s2)
  rw [h]

/-- Rebuild a run result from knowledge of its first component. -/
theorem pair_fst_eq {α : Type} {p : Except Err α × GState} {a : α}
    (h : p.1 = Except.ok a) : p = (Except.ok a, p.2) := by
  rw [← h]

/-! ### lgpio binding operations

Modelled from the documented semantics of the external lgpio Python
binding (not part of this repository): each call raises `lgpio.error` on a
negative result from the C library, which we render as `Err.lg`. -/

/-- Update one line of the kernel state. -/
def setLine (g : Nat) (l : KLine) (s : GState) : GState :=
  { s with kernel :=
    { s.kernel with lines := fun x => if x = g then l else s.kernel.lines x } }

/-- `lgpio.gpio_get_mode`: reports the claim/pull bits and, on gpiochip
API2 only, the live edge configuration at bits 17-18. -/
def gpio_get_mode (g : Nat) : M Nat := fun s =>
  if s.kernel.isOpen then
    let l := s.kernel.lines g
    (Except.ok (l.modeBits ||| (if s.kernel.api2 then l.edgeCode <<< 17 else 0)), s)
  else (Except.error (Err.lg "GPIO not available"), s)

/-- `lgpio.gpio_read`: returns the electrical level of the line. -/
def gpio_read (g : Nat) : M Nat := fun s =>
  if s.kernel.isOpen then
    (Except.ok (if (s.kernel.lines g).level then 1 else 0), s)
  else (Except.error (Err.lg "GPIO not available"), s)

/-- `lgpio.gpio_write`: sets the level of a line claimed for output; fails
on a line not claimed for output. -/
def gpio_write (g : Nat) (v : Bool) : M Unit := fun s =>
  if s.kernel.isOpen ∧ (s.kernel.lines g).modeBits &&& LG_OUTPUT ≠ 0 then
    (Except.ok (), setLine g { s.kernel.lines g with level := v } s)
  else (Except.error (Err.lg "GPIO not allocated"), s)

/-- `lgpio.gpio_claim_input`: claims a line for input with the given pull
flags. The electrical level is unchanged. -/
def gpio_claim_input (g : Nat) (flags : Nat) : M Unit := fun s =>
  if s.kernel.isOpen then
    (Except.ok (), setLine g
      { modeBits := LG_INPUT ||| flags, level := (s.kernel.lines g).level
        debounceMicros := (s.kernel.lines g).debounceMicros
        pwm := none, edgeCode := 0 } s)
  else (Except.error (Err.lg "GPIO not available"), s)

/-- `lgpio.gpio_claim_output`: claims a line for output at the given level. -/
def gpio_claim_output (g : Nat) (lvl : Bool) (flags : Nat) : M Unit := fun s =>
  if s.kernel.isOpen then
    (Except.ok (), setLine g
      { modeBits := LG_OUTPUT ||| flags, level := lvl
        debounceMicros := (s.kernel.lines g).debounceMicros
        pwm := none, edgeCode := 0 } s)
  else (Except.error (Err.lg "GPIO not available"), s)

/-- `lgpio.gpio_claim_alert`: claims a line for edge alerts with the given
lgpio edge flag (1/2/3) and line flags. -/
def gpio_claim_alert (g : Nat) (eflag : Int) (lflags : Nat) : M Unit := fun s =>
  if s.kernel.isOpen then
    (Except.ok (), setLine g
      { modeBits := LG_ALERT ||| lflags, level := (s.kernel.lines g).level
        debounceMicros := (s.kernel.lines g).debounceMicros
        pwm := none, edgeCode := eflag.toNat } s)
  else (Except.error (Err.lg "GPIO not available"), s)

/-- `lgpio.gpio_free`: releases a claimed line. -/
def gpio_free (g : Nat) : M Unit := fun s =>
  if s.kernel.isOpen ∧ (s.kernel.lines g).modeBits &&& LG_MODES ≠ 0 then
    (Except.ok (), setLine g
      { s.kernel.lines g with modeBits := 0, pwm := none, edgeCode := 0 } s)
  else (Except.error (Err.lg "GPIO not allocated"), s)

/-- `lgpio.gpio_set_debounce_micros`. -/
def gpio_set_debounce_micros (g : Nat) (micros : Int) : M Unit := fun s =>
  if s.kernel.isOpen then
    (Except.ok (), setLine g { s.kernel.lines g with debounceMicros := micros } s)
  else (Except.error (Err.lg "GPIO not available"), s)

/-- `lgpio.tx_pwm`: programs software-timed PWM on an output line. -/
def tx_pwm (g : Nat) (freq dc : Rat) : M Unit := fun s =>
  if s.kernel.isOpen ∧ (s.kernel.lines g).modeBits &&& LG_OUTPUT ≠ 0 then
    (Except.ok (), setLine g { s.kernel.lines g with pwm := some (freq, dc) } s)
  else (Except.error (Err.lg "GPIO not allocated"), s)

/-! ### ChannelMapper: `_BOARD_MAP`, `_BCM_MAP`, `_to_gpio`, `_from_gpio` -/

/-- `_BOARD_MAP`: the fixed board-position to GPIO-line table (Model B+ and
later 40-pin header). -/
def BOARD_MAP : List (Int × Nat) :=
  [(3, 2), (5, 3), (7, 4), (8, 14), (10, 15), (11, 17), (12, 18), (13, 27),
   (15, 22), (16, 23), (18, 24), (19, 10), (21, 9), (22, 25), (23, 11),
   (24, 8), (26, 7), (29, 5), (31, 6), (32, 12), (33, 13), (35, 19),
   (36, 16), (37, 26), (38, 20), (40, 21)]

/-- Dictionary lookup in `_BOARD_MAP`. -/
def boardLookup (channel : Int) : Option Nat :=
  (BOARD_MAP.find? (fun pg => pg.1 = channel)).map (fun pg => pg.2)

/-- `_BCM_MAP`: the inverse dictionary, looked up by GPIO number. -/
def bcmLookup (gpio : Nat) : Option Int :=
  (BOARD_MAP.find? (fun pg => pg.2 = gpio)).map (fun pg => pg.1)

/-- `_to_gpio`: converts a channel to a GPIO number according to `_mode`. -/
def to_gpio (channel : Int) : M Nat := do
  let s ← getS
  if s.mode = UNKNOWN then
    mraise (Err.runtime
      "Please set pin numbering mode using GPIO.setmode(GPIO.BOARD) or GPIO.setmode(GPIO.BCM)")
  else if s.mode = BCM then
    if 0 ≤ channel ∧ channel < 54 then pure channel.toNat
    else mraise (Err.value "The channel sent is invalid on a Raspberry Pi")
  else if s.mode = BOARD then
    match boardLookup channel with
    | some g => pure g
    | none => mraise (Err.value "The channel sent is invalid on a Raspberry Pi")
  else
    mraise Err.assertFail

/-- `_from_gpio`: converts a GPIO number back to a channel according to
`_mode`. In BOARD mode an unmapped GPIO raises `KeyError` (the bare dict
lookup in the source). -/
def from_gpio (gpio : Nat) : M Int := do
  let s ← getS
  if s.mode = BCM then pure (gpio : Int)
  else if s.mode = BOARD then
    match bcmLookup gpio with
    | some c => pure c
    | none => mraise Err.keyErr
  else
    mraise (Err.runtime
      "Please set pin numbering mode using GPIO.setmode(GPIO.BOARD) or GPIO.setmode(GPIO.BCM)")

/-- Argument of `_gpio_list`: a single channel or a list of channels (the
ValueError branch for non-integer, non-iterable input is outside this typed
model). -/
inductive ChanInput where
  | one (c : Int)
  | many (cs : List Int)

/-- The generator inside `_gpio_list`: `_to_gpio` applied elementwise,
errors propagating. -/
def toGpioList : List Int → M (List Nat)
  | [] => pure []
  | c :: cs => do
    let g ← to_gpio c
    let gs ← toGpioList cs
    pure (g :: gs)

/-- `_gpio_list`: converts a channel or iterable of channels to a list of
GPIO numbers. -/
def gpio_list : ChanInput → M (List Nat)
  | ChanInput.many cs => toGpioList cs
  | ChanInput.one c => do
    let g ← to_gpio c
    pure [g]

/-- `_in_use`: whether the calling process owns the GPIO (any LG claim bit
set). -/
def in_use (gpio : Nat) : M Bool := do
  let m ← gpio_get_mode gpio
  pure (m &&& LG_MODES ≠ 0)

/-! ### Validation helpers -/

/-- `_check_input`: requires the mode word to carry the Input or Alert bit. -/
def check_input (mode : Nat) (msg : String) : Except Err Unit :=
  if mode &&& (LG_INPUT ||| LG_ALERT) = 0 then Except.error (Err.runtime msg)
  else Except.ok ()

/-- `_check_output`: requires the mode word to carry the Output bit. -/
def check_output (mode : Nat) (msg : String) : Except Err Unit :=
  if mode &&& LG_OUTPUT = 0 then Except.error (Err.runtime msg)
  else Except.ok ()

/-- `_check_edge`: the edge must be one of RISING, FALLING, BOTH. -/
def check_edge (edge : Int) : Except Err Unit :=
  if edge = FALLING ∨ edge = RISING ∨ edge = BOTH then Except.ok ()
  else Except.error (Err.value "The edge must be set to RISING, FALLING or BOTH")

/-- `_check_bounce`: `-666` is normalized to `None`; any other given value
must be strictly positive. -/
def check_bounce (bouncetime : Option Int) : Except Err (Option Int) :=
  let b := if bouncetime = some (-666) then none else bouncetime
  match b with
  | some v =>
    if v ≤ 0 then Except.error (Err.value "Bouncetime must be greater than 0")
    else Except.ok (some v)
  | none => Except.ok none

/-! ### setmode / getmode / setwarnings -/

/-- `setmode`: note the conflict check precedes the validity check. Opening
the chip handle (`lgpio.gpiochip_open` guided by `RPI_LGPIO_CHIP` or
`_get_rpi_info`, both external collaborators) is modelled as always
succeeding. -/
def setmode (new_mode : Int) : M Unit := do
  let s ← getS
  if s.mode ≠ UNKNOWN ∧ new_mode ≠ s.mode then
    mraise (Err.value "A different mode has already been set!")
  else if ¬ (new_mode = BOARD ∨ new_mode = BCM) then
    mraise (Err.value "An invalid mode was passed to setmode()")
  else do
    if ¬ s.kernel.isOpen then
      modifyS (fun s => { s with kernel := { s.kernel with isOpen := true } })
    modifyS (fun s => { s with mode := new_mode })

/-- `getmode`. -/
def getmode : M (Option Int) := do
  let s ← getS
  if s.mode = UNKNOWN then pure none else pure (some s.mode)

/-- `setwarnings`. -/
def setwarnings (value : Bool) : M Unit :=
  modifyS (fun s => { s with warningsOn := value })

/-! ### Alert registry: `_get_alert`, `_set_alert`, `_unset_alert` -/

/-- The `_Alert.edge` property: reads the live edge configuration back from
the kernel (gpiochip API2, bits 17-18 of the mode word) and maps it to the
lgpio edge constants; if the kernel exposes no edge bits (API1), falls back
to the stored value `_edge`. -/
def alertEdge (a : Alert) : M Int := do
  let m ← gpio_get_mode a.gpio
  let code := (m >>> 17) &&& 3
  if code = 1 then pure RISING_EDGE
  else if code = 2 then pure FALLING_EDGE
  else if code = 3 then pure BOTH_EDGES
  else pure a.edgeStored

/-- `_get_alert`: returns the alert for `gpio` if one is registered with
compatible edge and bouncetime; raises `KeyError` if no alert claim or no
dict entry, `RuntimeError` on incompatible settings. -/
def get_alert (gpio : Nat) (mode : Nat) (edge : Int) (bouncetime : Option Int) :
    M Alert := do
  if mode &&& LG_ALERT = 0 then mraise Err.keyErr
  else do
    let s ← getS
    match s.alerts gpio with
    | none => mraise Err.keyErr
    | some alert => do
      let ae ← alertEdge alert
      if ae ≠ edge ∨ alert.bouncetime ≠ bouncetime then
        mraise (Err.runtime
          "Conflicting edge detection already enabled for this GPIO channel")
      else pure alert

/-- `_set_alert`: claims the kernel alert, sets the debounce (twice: once in
`_set_alert` and once more in the `_Alert` constructor, as in the source),
creates the `_Alert` record and registers it in `_alerts`. -/
def set_alert (gpio : Nat) (mode : Nat) (edge : Int) (bouncetime : Option Int) :
    M Alert := do
  let eflag ←
    if edge = RISING then pure RISING_EDGE
    else if edge = FALLING then pure FALLING_EDGE
    else if edge = BOTH then pure BOTH_EDGES
    else mraise Err.keyErr
  gpio_claim_alert gpio eflag (mode &&& LG_PULLS)
  match bouncetime with
  | some b => gpio_set_debounce_micros gpio (b * 1000)
  | none => pure ()
  match bouncetime with
  | some b => gpio_set_debounce_micros gpio (b * 1000)
  | none => pure ()
  let alert : Alert :=
    { gpio := gpio, edgeStored := edge, bouncetime := bouncetime
      callbacks := [], detectedFlag := false }
  modifyS (fun s =>
    { s with alerts := fun g => if g = gpio then some alert else s.alerts g })
  pure alert

/-- `_unset_alert`: pops the `_Alerts` entry if present and cancels its
lgpio callback (the kernel alert claim itself is left in place). -/
def unset_alert (gpio : Nat) : M Unit := fun s =>
  match s.alerts gpio with
  | none => (Except.ok (), s)
  | some _ =>
    (Except.ok (),
     { s with alerts := fun g => if g = gpio then none else s.alerts g })

/-- `_Alert._call`: the lgpio delivery callback. A watchdog event (level 2)
is ignored; otherwise the detected flag is set and the user callbacks run
(opaque here; their exceptions are printed, not re-raised). -/
def alertCall (gpio : Nat) (level : Nat) : M Unit := fun s =>
  if level = 2 then (Except.ok (), s)
  else
    (Except.ok (),
     { s with alerts := fun g =>
        if g = gpio then (s.alerts g).map (fun a => { a with detectedFlag := true })
        else s.alerts g })

/-! ### setup / input / output -/

/-- The per-channel body of the `setup` loop. The `initial` parameter is the
loop-carried Python local: the source rebinds it to the level read for the
first output channel, so later channels in the same call reuse that value.
The warnings condition at line 659 of the source reads the undefined name
`pull` (the parameter is `pull_up_down`), so reaching it raises `NameError`
by short-circuit evaluation whenever warnings are enabled and the GPIO is 2
or 3. -/
def setupLoop (direction pud : Int) : List Nat → Option Bool → M Unit
  | [], _ => pure ()
  | gpio :: rest, initial => do
    let s ← getS
    if s.warningsOn ∧ (gpio = 2 ∨ gpio = 3) then
      mraise (Err.nameErr "name pull is not defined")
    else if direction = IN then do
      -- required when changing the line-flags of an already acquired input
      catchLg (gpio_free gpio) (pure ())
      gpio_claim_input gpio
        (if pud = PUD_OFF then SET_PULL_NONE
         else if pud = PUD_DOWN then SET_PULL_DOWN
         else SET_PULL_UP)
      setupLoop direction pud rest initial
    else if direction = OUT then do
      unset_alert gpio
      let init ←
        match initial with
        | none => do
          let lvl ← gpio_read gpio
          pure (lvl != 0)
        | some b => pure b
      gpio_claim_output gpio init SET_PULL_NONE
      setupLoop direction pud rest (some init)
    else
      mraise Err.assertFail

/-- `setup`: validates direction, pull and initial, then configures each
channel in the list. -/
def setup (chanlist : ChanInput) (direction : Int) (pull_up_down : Int)
    (initial : Option Int) : M Unit := do
  let initialB : Option Bool ←
    if direction = OUT then
      if pull_up_down ≠ PUD_OFF then
        mraise (Err.value "pull_up_down parameter is not valid for outputs")
      else pure (initial.map (fun i => i != 0))
    else if direction = IN then
      if initial ≠ none then
        mraise (Err.value "initial parameter is not valid for inputs")
      else if ¬ (pull_up_down = PUD_UP ∨ pull_up_down = PUD_DOWN ∨ pull_up_down = PUD_OFF) then
        mraise (Err.value
          "Invalid value for pull_up_down - should be either PUD_OFF, PUD_UP or PUD_DOWN")
      else pure none
    else mraise (Err.value "An invalid direction was passed to setup()")
  let gpios ← gpio_list chanlist
  setupLoop direction pull_up_down gpios initialB

/-- `input`: reads a channel that has been set up (either direction). -/
def input (channel : Int) : M Nat := do
  let gpio ← to_gpio channel
  let used ← in_use gpio
  if ¬ used then
    mraise (Err.runtime "You must setup() the GPIO channel first")
  else gpio_read gpio

/-- Value argument of `output`: a single value or a list of values. -/
inductive ValInput where
  | one (v : Int)
  | many (vs : List Int)

/-- The write loop of `output`: per line, check the output claim then
write. A failure aborts the loop, leaving earlier writes in place. -/
def outputLoop : List (Nat × Bool) → M Unit
  | [] => pure ()
  | (gpio, v) :: rest => do
    let mode ← gpio_get_mode gpio
    liftE (check_output mode "The GPIO channel has not been set up as an OUTPUT")
    gpio_write gpio v
    outputLoop rest

/-- `output`: writes one value to one channel, N values to N channels, or
broadcasts 1 value to N channels; other length combinations fail before any
write. -/
def output (channel : ChanInput) (value : ValInput) : M Unit := do
  let gpios ← gpio_list channel
  let values : List Bool :=
    match value with
    | ValInput.many vs => vs.map (fun v => v != 0)
    | ValInput.one v => [v != 0]
  let values ←
    if gpios.length ≠ values.length then
      if gpios.length > 1 ∧ values.length = 1 then
        pure (List.replicate gpios.length (values.headD false))
      else
        mraise (Err.runtime "Number of channels != number of values")
    else pure values
  outputLoop (gpios.zip values)

/-! ### wait_for_edge / event_detected -/

/-- `wait_for_edge`. The blocking `evt.wait(timeout)` depends on the edge
delivery thread; its outcome is an explicit oracle parameter `edgeFires`
(true when the watched edge signalled the event before the timeout). -/
def wait_for_edge (channel edge : Int) (bouncetime timeout : Option Int)
    (edgeFires : Bool) : M (Option Int) := do
  let gpio ← to_gpio channel
  let mode ← gpio_get_mode gpio
  liftE (check_input mode "You must setup() the GPIO channel as an input first")
  liftE (check_edge edge)
  let bouncetime ← liftE (check_bounce bouncetime)
  if timeout.any (fun t => t ≤ 0) then
    mraise (Err.value "Timeout must be greater than 0")
  else do
    let ua ← catchKey
      (do
        let a ← get_alert gpio mode edge bouncetime
        -- Bug compatibility with RPi.GPIO: an alert that already has
        -- callbacks registered conflicts with a blocking wait
        if a.callbacks ≠ [] then
          mraise (Err.runtime
            "Conflicting edge detection already enabled for this GPIO channel")
        else pure (false, a))
      (do
        let a ← set_alert gpio mode edge bouncetime
        pure (true, a))
    -- append the one-shot internal callback (id 0) that signals the event
    modifyS (fun s =>
      { s with alerts := fun g =>
          if g = gpio then
            (s.alerts g).map (fun a => { a with callbacks := a.callbacks ++ [0] })
          else s.alerts g })
    let result := if edgeFires then some channel else none
    if ua.1 then unset_alert gpio
    pure result

/-- The `_Alert.detected` property: returns the flag and clears it. Raises
`KeyError` when the line has no registered alert (the dict lookup). -/
def alertDetected (gpio : Nat) : M Bool := fun s =>
  match s.alerts gpio with
  | none => (Except.error Err.keyErr, s)
  | some a =>
    if a.detectedFlag then
      (Except.ok true,
       { s with alerts := fun g =>
          if g = gpio then some { a with detectedFlag := false } else s.alerts g })
    else (Except.ok false, s)

/-- `event_detected`: returns and clears the detected flag; a missing alert
(KeyError) yields `false`, while channel-translation errors propagate. -/
def event_detected (channel : Int) : M Bool :=
  catchKey
    (do
      let gpio ← to_gpio channel
      alertDetected gpio)
    (pure false)

/-! ### Software PWM -/

/-- The mutable fields of a `PWM` object (`self`). The transient `None`
state of `_frequency`/`_dc` inside `__init__` is not modelled; all claims
concern instances past construction. -/
structure PwmRec where
  gpio : Nat
  frequency : Rat
  dc : Rat
  running : Bool
  deriving Repr, DecidableEq

/-- Result of a PWM method: outcome, updated `self`, updated module state. -/
def PwmResult := Except Err Unit × PwmRec × GState

/-- `PWM.stop`: the `tx_pwm` call is wrapped in `try/except lgpio.error`,
but the following `gpio_write` is outside that block in the source, so its
failure propagates and skips the `_running = False` assignment. -/
def PWM.stop (self : PwmRec) (s : GState) : PwmResult :=
  let s1 :=
    match tx_pwm self.gpio 0 0 s with
    | (Except.ok _, t) => t
    | (Except.error _, t) => t   -- tx_pwm raises only lgpio.error, suppressed
  match gpio_write self.gpio false s1 with
  | (Except.ok _, s2) => (Except.ok (), { self with running := false }, s2)
  | (Except.error e, s2) => (Except.error e, self, s2)

/-- `PWM.ChangeDutyCycle`: stores the new duty cycle first, then validates,
then re-applies to the generator only if running. -/
def PWM.ChangeDutyCycle (self : PwmRec) (dc : Rat) (s : GState) : PwmResult :=
  let self := { self with dc := dc }
  if ¬ (0 ≤ self.dc ∧ self.dc ≤ 100) then
    (Except.error (Err.value "dutycycle must have a value from 0.0 to 100.0"), self, s)
  else if self.running then
    match tx_pwm self.gpio self.frequency self.dc s with
    | (Except.ok _, s2) => (Except.ok (), self, s2)
    | (Except.error e, s2) => (Except.error e, self, s2)
  else (Except.ok (), self, s)

/-- `PWM.ChangeFrequency`: stores the new frequency first, then validates,
then re-applies to the generator only if running. -/
def PWM.ChangeFrequency (self : PwmRec) (frequency : Rat) (s : GState) : PwmResult :=
  let self := { self with frequency := frequency }
  if self.frequency ≤ 0 then
    (Except.error (Err.value "frequency must be greater than 0.0"), self, s)
  else if self.running then
    match tx_pwm self.gpio self.frequency self.dc s with
    | (Except.ok _, s2) => (Except.ok (), self, s2)
    | (Except.error e, s2) => (Except.error e, self, s2)
  else (Except.ok (), self, s)

/-- `PWM.start`: sets the duty cycle, marks running, then programs the
generator (passing the raw `dc` argument, as the source does). -/
def PWM.start (self : PwmRec) (dc : Rat) (s : GState) : PwmResult :=
  match PWM.ChangeDutyCycle self dc s with
  | (Except.error e, self2, s2) => (Except.error e, self2, s2)
  | (Except.ok _, self2, s2) =>
    let self3 := { self2 with running := true }
    match tx_pwm self3.gpio self3.frequency dc s2 with
    | (Except.ok _, s3) => (Except.ok (), self3, s3)
    | (Except.error e, s3) => (Except.error e, self3, s3)

/-- Decidable equality of outcomes, for evaluating concrete runs. -/
instance {ε α : Type} [DecidableEq ε] [DecidableEq α] : DecidableEq (Except ε α) :=
  fun a b =>
    match a, b with
    | Except.ok x, Except.ok y =>
      if h : x = y then isTrue (by rw [h]) else isFalse (by simp [h])
    | Except.error e, Except.error f =>
      if h : e = f then isTrue (by rw [h]) else isFalse (by simp [h])
    | Except.ok _, Except.error _ => isFalse (by simp)
    | Except.error _, Except.ok _ => isFalse (by simp)

/-! ## Basic state lemmas -/

@[simp] theorem setLine_isOpen (g : Nat) (l : KLine) (s : GState) :
    ((setLine g l s).kernel).isOpen = s.kernel.isOpen := rfl

@[simp] theorem setLine_api2 (g : Nat) (l : KLine) (s : GState) :
    ((setLine g l s).kernel).api2 = s.kernel.api2 := rfl

@[simp] theorem setLine_mode (g : Nat) (l : KLine) (s : GState) :
    (setLine g l s).mode = s.mode := rfl

@[simp] theorem setLine_warningsOn (g : Nat) (l : KLine) (s : GState) :
    (setLine g l s).warningsOn = s.warningsOn := rfl

@[simp] theorem setLine_alerts (g : Nat) (l : KLine) (s : GState) :
    (setLine g l s).alerts = s.alerts := rfl

@[simp] theorem setLine_lines_self (g : Nat) (l : KLine) (s : GState) :
    ((setLine g l s).kernel).lines g = l := by
  simp [setLine]

theorem setLine_lines_ne (g x : Nat) (l : KLine) (s : GState) (h : x ≠ g) :
    ((setLine g l s).kernel).lines x = s.kernel.lines x := by
  simp [setLine, h]

/-- `to_gpio` never mutates the state. -/
theorem to_gpio_state (channel : Int) (s : GState) : (to_gpio channel s).2 = s := by
  simp only [to_gpio, M_bind_apply, M_getS_apply]
  split
  · rfl
  · split
    · split <;> rfl
    · split
      · cases boardLookup channel <;> rfl
      · rfl

/-- `to_gpio` depends only on the mode component of the state. -/
theorem to_gpio_congr (channel : Int) (s t : GState) (h : t.mode = s.mode) :
    (to_gpio channel t).1 = (to_gpio channel s).1 := by
  simp only [to_gpio, M_bind_apply, M_getS_apply, h]
  split
  · rfl
  · split
    · split <;> rfl
    · split
      · cases boardLookup channel <;> rfl
      · rfl

/-! ## Concrete states shared by the witnesses -/

/-- An electrical environment where line 6 is high and every other line is
low; no line claimed. -/
def initLines : Nat → KLine := fun g => KLine.free (g == 6)

/-- The state of a freshly imported module: no mode, warnings on, no chip
handle, no alerts. -/
def state0 : GState :=
  { mode := UNKNOWN, warningsOn := true, alerts := fun _ => none,
    kernel := { isOpen := false, api2 := true, lines := initLines } }

/-- The module state right after `setmode(BOARD)`. -/
def boardState : GState := (setmode BOARD state0).2

/-- The module state right after `setmode(BCM)`. -/
def bcmState : GState := (setmode BCM state0).2

/-! ## Bitwise helpers for the mode word

`gpio_get_mode` reports `modeBits ||| (edgeCode <<< 17)` on API2; the claim
bits all live below bit 12, so tests of claim bits see only `modeBits`. -/

/-- A value shifted up by 17 bits shares no bits with a constant below
`2 ^ 17`. -/
theorem shiftLeft17_and_low (x c : Nat) (hc : c < 2 ^ 17) : (x <<< 17) &&& c = 0 := by
  apply Nat.zero_of_testBit_eq_false
  intro i
  simp only [Nat.testBit_land, Nat.testBit_shiftLeft]
  rcases Nat.lt_or_ge i 17 with h | h
  · simp [Nat.not_le.mpr h]
  · have hcb : c.testBit i = false :=
      Nat.testBit_eq_false_of_lt
        (lt_of_lt_of_le hc (Nat.pow_le_pow_right (by norm_num) h))
    simp [hcb]

/-- Masking the reported mode word with a low constant ignores the API2
edge bits. -/
theorem modeWord_and_low (mb ec c : Nat) (b : Bool) (hc : c < 2 ^ 17) :
    (mb ||| (if b then ec <<< 17 else 0)) &&& c = mb &&& c := by
  cases b
  · simp
  · simp only [if_true]
    rw [Nat.and_comm, Nat.and_or_distrib_left, Nat.and_comm c mb,
      Nat.and_comm c (ec <<< 17), shiftLeft17_and_low ec c hc, Nat.or_zero]

/-! ## Lemmas about the kernel operations -/

theorem gpio_get_mode_ok (g : Nat) (s : GState) (hO : s.kernel.isOpen = true) :
    gpio_get_mode g s =
      (Except.ok ((s.kernel.lines g).modeBits |||
        (if s.kernel.api2 then (s.kernel.lines g).edgeCode <<< 17 else 0)), s) := by
  simp [gpio_get_mode, hO]

theorem check_output_ok (m : Nat) (msg : String) (h : m &&& LG_OUTPUT ≠ 0) :
    check_output m msg = Except.ok () := by
  simp [check_output, h]

theorem check_output_err (m : Nat) (msg : String) (h : m &&& LG_OUTPUT = 0) :
    check_output m msg = Except.error (Err.runtime msg) := by
  simp [check_output, h]

theorem gpio_write_ok (g : Nat) (v : Bool) (s : GState)
    (hO : s.kernel.isOpen = true)
    (hB : (s.kernel.lines g).modeBits &&& LG_OUTPUT ≠ 0) :
    gpio_write g v s =
      (Except.ok (), setLine g { s.kernel.lines g with level := v } s) := by
  simp [gpio_write, hO, hB]

theorem gpio_write_snd_isOpen (g : Nat) (v : Bool) (s : GState) :
    (((gpio_write g v s).2).kernel).isOpen = s.kernel.isOpen := by
  simp only [gpio_write]
  split <;> rfl

theorem gpio_write_snd_api2 (g : Nat) (v : Bool) (s : GState) :
    (((gpio_write g v s).2).kernel).api2 = s.kernel.api2 := by
  simp only [gpio_write]
  split <;> rfl

theorem gpio_write_snd_modeBits (g : Nat) (v : Bool) (s : GState) (x : Nat) :
    ((((gpio_write g v s).2).kernel).lines x).modeBits =
      ((s.kernel).lines x).modeBits := by
  simp only [gpio_write]
  split
  · by_cases hx : x = g
    · subst hx
      simp
    · rw [setLine_lines_ne g x _ s hx]
  · rfl

theorem gpio_write_snd_lines_ne (g : Nat) (v : Bool) (s : GState) (x : Nat)
    (hx : x ≠ g) :
    (((gpio_write g v s).2).kernel).lines x = (s.kernel).lines x := by
  simp only [gpio_write]
  split
  · rw [setLine_lines_ne g x _ s hx]
  · rfl

/-! ## The write loop as a state fold (C3, C4) -/

/-- The cumulative state effect of the writes performed by `outputLoop`. -/
def writeFold : List (Nat × Bool) → GState → GState
  | [], s => s
  | (g, v) :: rest, s => writeFold rest ((gpio_write g v s).2)

theorem writeFold_isOpen (ps : List (Nat × Bool)) : ∀ s : GState,
    ((writeFold ps s).kernel).isOpen = s.kernel.isOpen := by
  induction ps with
  | nil => intro s; rfl
  | cons p rest ih =>
    intro s
    obtain ⟨g, v⟩ := p
    rw [writeFold, ih, gpio_write_snd_isOpen]

theorem writeFold_modeBits (ps : List (Nat × Bool)) : ∀ (s : GState) (x : Nat),
    (((writeFold ps s).kernel).lines x).modeBits = ((s.kernel).lines x).modeBits := by
  induction ps with
  | nil => intro s x; rfl
  | cons p rest ih =>
    intro s x
    obtain ⟨g, v⟩ := p
    rw [writeFold, ih, gpio_write_snd_modeBits]

theorem writeFold_lines_not_mem (ps : List (Nat × Bool)) : ∀ (s : GState) (x : Nat),
    x ∉ ps.map Prod.fst → ((writeFold ps s).kernel).lines x = (s.kernel).lines x := by
  induction ps with
  | nil => intro s x _; rfl
  | cons p rest ih =>
    intro s x hx
    obtain ⟨g, v⟩ := p
    simp only [List.map_cons, List.mem_cons, not_or] at hx
    rw [writeFold, ih _ x hx.2, gpio_write_snd_lines_ne g v s x hx.1]

/-- After a broadcast write (every pair carries the same value) every
written line is at that value. -/
theorem writeFold_level_const (b : Bool) (ps : List (Nat × Bool))
    (hb : ∀ p ∈ ps, p.2 = b) : ∀ (s : GState) (g : Nat),
    s.kernel.isOpen = true →
    (∀ p ∈ ps, ((s.kernel).lines p.1).modeBits &&& LG_OUTPUT ≠ 0) →
    g ∈ ps.map Prod.fst →
    (((writeFold ps s).kernel).lines g).level = b := by
  induction ps with
  | nil => intro s g _ _ hg; simp at hg
  | cons p rest ih =>
    intro s g hO hall hg
    obtain ⟨g0, v0⟩ := p
    have hv0 : v0 = b := hb (g0, v0) (List.mem_cons_self _ _)
    have hO2 : (((gpio_write g0 v0 s).2).kernel).isOpen = true := by
      rw [gpio_write_snd_isOpen]; exact hO
    have hall2 : ∀ p ∈ rest,
        ((((gpio_write g0 v0 s).2).kernel).lines p.1).modeBits &&& LG_OUTPUT ≠ 0 := by
      intro p hp
      rw [gpio_write_snd_modeBits]
      exact hall p (List.mem_cons_of_mem _ hp)
    by_cases hmem : g ∈ rest.map Prod.fst
    · rw [writeFold]
      exact ih (fun p hp => hb p (List.mem_cons_of_mem _ hp)) _ g hO2 hall2 hmem
    · have hgg : g = g0 := by
        simp only [List.map_cons, List.mem_cons] at hg
        tauto
      subst hgg
      rw [writeFold, writeFold_lines_not_mem rest _ g hmem,
        gpio_write_ok g v0 s hO (hall (g, v0) (List.mem_cons_self _ _))]
      simp [hv0]

/-- After a list write with distinct lines, each written line holds its own
value. -/
theorem writeFold_level_nodup (ps : List (Nat × Bool))
    (hnd : (ps.map Prod.fst).Nodup) : ∀ s : GState,
    s.kernel.isOpen = true →
    (∀ p ∈ ps, ((s.kernel).lines p.1).modeBits &&& LG_OUTPUT ≠ 0) →
    ∀ p ∈ ps, (((writeFold ps s).kernel).lines p.1).level = p.2 := by
  induction ps with
  | nil => intro s _ _ p hp; simp at hp
  | cons q rest ih =>
    intro s hO hall p hp
    obtain ⟨g0, v0⟩ := q
    simp only [List.map_cons, List.nodup_cons] at hnd
    have hO2 : (((gpio_write g0 v0 s).2).kernel).isOpen = true := by
      rw [gpio_write_snd_isOpen]; exact hO
    have hall2 : ∀ p ∈ rest,
        ((((gpio_write g0 v0 s).2).kernel).lines p.1).modeBits &&& LG_OUTPUT ≠ 0 := by
      intro p hp
      rw [gpio_write_snd_modeBits]
      exact hall p (List.mem_cons_of_mem _ hp)
    rcases List.mem_cons.mp hp with heq | hmem
    · subst heq
      rw [writeFold, writeFold_lines_not_mem rest _ g0 hnd.1,
        gpio_write_ok g0 v0 s hO (hall (g0, v0) (List.mem_cons_self _ _))]
      simp
    · rw [writeFold]
      exact ih hnd.2 _ hO2 hall2 p hmem

/-- When every listed line is claimed for output, the write loop succeeds
and its effect is `writeFold`. -/
theorem outputLoop_ok (ps : List (Nat × Bool)) : ∀ s : GState,
    s.kernel.isOpen = true →
    (∀ p ∈ ps, ((s.kernel).lines p.1).modeBits &&& LG_OUTPUT ≠ 0) →
    outputLoop ps s = (Except.ok (), writeFold ps s) := by
  induction ps with
  | nil => intro s _ _; rfl
  | cons p rest ih =>
    intro s hO hall
    obtain ⟨g, v⟩ := p
    have hbit := hall (g, v) (List.mem_cons_self _ _)
    have hword : ((s.kernel.lines g).modeBits |||
        (if s.kernel.api2 then (s.kernel.lines g).edgeCode <<< 17 else 0)) &&&
        LG_OUTPUT ≠ 0 := by
      rw [modeWord_and_low _ _ _ _ (by norm_num [LG_OUTPUT])]
      exact hbit
    have hO2 : (((gpio_write g v s).2).kernel).isOpen = true := by
      rw [gpio_write_snd_isOpen]; exact hO
    have hall2 : ∀ p ∈ rest,
        ((((gpio_write g v s).2).kernel).lines p.1).modeBits &&& LG_OUTPUT ≠ 0 := by
      intro p hp
      rw [gpio_write_snd_modeBits]
      exact hall p (List.mem_cons_of_mem _ hp)
    simp only [outputLoop, M_bind_apply, gpio_get_mode_ok g s hO, M_liftE_apply,
      check_output_ok _ _ hword, writeFold]
    rw [gpio_write_ok g v s hO hbit]
    exact ih _ (by rw [gpio_write_ok g v s hO hbit] at hO2; exact hO2)
      (by intro p hp; rw [gpio_write_ok g v s hO hbit] at hall2; exact hall2 p hp)

/-- When the loop reaches a line that is not claimed for output, it stops
with the not-output error; the writes already performed stay. -/
theorem outputLoop_fail_at (pre : List (Nat × Bool)) (gK : Nat) (vK : Bool)
    (post : List (Nat × Bool)) : ∀ s : GState,
    s.kernel.isOpen = true →
    (∀ p ∈ pre, ((s.kernel).lines p.1).modeBits &&& LG_OUTPUT ≠ 0) →
    ((s.kernel).lines gK).modeBits &&& LG_OUTPUT = 0 →
    outputLoop (pre ++ (gK, vK) :: post) s =
      (Except.error (Err.runtime "The GPIO channel has not been set up as an OUTPUT"),
       writeFold pre s) := by
  induction pre with
  | nil =>
    intro s hO _ hK
    have hword : ((s.kernel.lines gK).modeBits |||
        (if s.kernel.api2 then (s.kernel.lines gK).edgeCode <<< 17 else 0)) &&&
        LG_OUTPUT = 0 := by
      rw [modeWord_and_low _ _ _ _ (by norm_num [LG_OUTPUT])]
      exact hK
    simp only [List.nil_append, outputLoop, M_bind_apply, gpio_get_mode_ok gK s hO,
      M_liftE_apply, check_output_err _ _ hword, writeFold]
  | cons p rest ih =>
    intro s hO hall hK
    obtain ⟨g, v⟩ := p
    have hbit := hall (g, v) (List.mem_cons_self _ _)
    have hword : ((s.kernel.lines g).modeBits |||
        (if s.kernel.api2 then (s.kernel.lines g).edgeCode <<< 17 else 0)) &&&
        LG_OUTPUT ≠ 0 := by
      rw [modeWord_and_low _ _ _ _ (by norm_num [LG_OUTPUT])]
      exact hbit
    simp only [List.cons_append, outputLoop, M_bind_apply, gpio_get_mode_ok g s hO,
      M_liftE_apply, check_output_ok _ _ hword, writeFold]
    rw [gpio_write_ok g v s hO hbit]
    refine ih _ ?_ ?_ ?_
    · simp only [setLine_isOpen]
      exact hO
    · intro p hp
      have := gpio_write_snd_modeBits g v s p.1
      rw [gpio_write_ok g v s hO hbit] at this
      rw [this]
      exact hall p (List.mem_cons_of_mem _ hp)
    · have := gpio_write_snd_modeBits g v s gK
      rw [gpio_write_ok g v s hO hbit] at this
      rw [this]
      exact hK

/-! ## C1: the board-position table -/

/-- Every entry of the table is found by both lookups. -/
theorem board_lookup_forall :
    BOARD_MAP.Forall
      (fun pg => boardLookup pg.1 = some pg.2 ∧ bcmLookup pg.2 = some pg.1) := by
  decide

/-- `to_gpio` in BOARD mode is the table lookup. -/
theorem to_gpio_board (s : GState) (h : s.mode = BOARD) (p : Int) :
    to_gpio p s =
      (match boardLookup p with
       | some g => (Except.ok g, s)
       | none => (Except.error (Err.value "The channel sent is invalid on a Raspberry Pi"), s)) := by
  simp only [to_gpio, M_bind_apply, M_getS_apply, h]
  norm_num [BOARD, UNKNOWN, BCM]
  cases boardLookup p <;> rfl

/-- `from_gpio` in BOARD mode is the inverse table lookup. -/
theorem from_gpio_board (s : GState) (h : s.mode = BOARD) (g : Nat) :
    from_gpio g s =
      (match bcmLookup g with
       | some c => (Except.ok c, s)
       | none => (Except.error Err.keyErr, s)) := by
  simp only [from_gpio, M_bind_apply, M_getS_apply, h]
  norm_num [BOARD, BCM]
  cases bcmLookup g <;> rfl

/-- C1 (amended): in board-position mode the fixed position-to-line table
contains 26 usable header positions (not 27), the mapping is injective in
both directions, every tabled position round-trips through
`to_gpio`/`from_gpio`, and every position not in the table fails with the
invalid-channel error. -/
theorem C1_board_map_bijection :
    BOARD_MAP.length = 26 ∧
    (BOARD_MAP.map Prod.fst).Nodup ∧
    (BOARD_MAP.map Prod.snd).Nodup ∧
    (∀ s : GState, s.mode = BOARD →
      (∀ p : Int, ∀ g : Nat, (p, g) ∈ BOARD_MAP →
        to_gpio p s = (Except.ok g, s) ∧
        from_gpio g s = (Except.ok p, s) ∧
        (do
          let g2 ← to_gpio p
          let c ← from_gpio g2
          to_gpio c) s = to_gpio p s) ∧
      (∀ p : Int, p ∉ BOARD_MAP.map Prod.fst →
        to_gpio p s =
          (Except.error (Err.value "The channel sent is invalid on a Raspberry Pi"), s))) := by
  refine ⟨by decide, by decide, by decide, ?_⟩
  intro s hs
  constructor
  · intro p g hmem
    have h1 := List.forall_iff_forall_mem.mp board_lookup_forall (p, g) hmem
    have htg : to_gpio p s = (Except.ok g, s) := by
      rw [to_gpio_board s hs p, h1.1]
    have hfg : from_gpio g s = (Except.ok p, s) := by
      rw [from_gpio_board s hs g, h1.2]
    refine ⟨htg, hfg, ?_⟩
    simp only [M_bind_apply, htg, hfg]
  · intro p hp
    have hnone : boardLookup p = none := by
      have : BOARD_MAP.find? (fun pg => pg.1 = p) = none := by
        rw [List.find?_eq_none]
        intro x hx
        simp only [decide_eq_true_eq]
        intro hxe
        exact hp (hxe ▸ List.mem_map_of_mem Prod.fst hx)
      simp [boardLookup, this]
    rw [to_gpio_board s hs p, hnone]

/-- C1 counterexample: the table has 26 entries, not 27. -/
theorem C1_cex_length : BOARD_MAP.length = 26 ∧ ¬ BOARD_MAP.length = 27 := by
  decide

/-- C1 witness: pin 3 maps to GPIO 2 and round-trips; pin 4 is not in the
table and is rejected. -/
theorem C1_witness :
    boardState.mode = BOARD ∧
    ((3 : Int), (2 : Nat)) ∈ BOARD_MAP ∧
    to_gpio 3 boardState = (Except.ok 2, boardState) ∧
    ¬ (4 : Int) ∈ BOARD_MAP.map Prod.fst ∧
    to_gpio 4 boardState =
      (Except.error (Err.value "The channel sent is invalid on a Raspberry Pi"), boardState) := by
  refine ⟨rfl, by decide, ?_, by decide, ?_⟩
  · exact ((C1_board_map_bijection.2.2.2 boardState rfl).1 3 2 (by decide)).1
  · exact (C1_board_map_bijection.2.2.2 boardState rfl).2 4 (by decide)

/-! ## C8: setmode -/

/-- C8 (amended): setting the same recognized mode twice succeeds and keeps
the mode; any value different from an already-set mode (recognized or not)
fails with the mode-conflict error and leaves the state unchanged; an
unrecognized value fails with the invalid-mode error when no mode has been
set. -/
theorem C8_setmode_conflicts :
    (∀ (s : GState) (m : Int), (m = BOARD ∨ m = BCM) → s.mode = m →
      (setmode m s).1 = Except.ok () ∧ ((setmode m s).2).mode = m) ∧
    (∀ (s : GState) (m : Int), s.mode ≠ UNKNOWN → m ≠ s.mode →
      setmode m s = (Except.error (Err.value "A different mode has already been set!"), s)) ∧
    (∀ (s : GState) (m : Int), s.mode = UNKNOWN → ¬ (m = BOARD ∨ m = BCM) →
      setmode m s = (Except.error (Err.value "An invalid mode was passed to setmode()"), s)) := by
  refine ⟨?_, ?_, ?_⟩
  · intro s m hm hsm
    have hmU : m ≠ UNKNOWN := by
      rcases hm with h | h <;> rw [h] <;> decide
    by_cases hO : s.kernel.isOpen <;>
      simp [setmode, hsm, hm, hmU, hO, M_bind_apply, M_getS_apply]
  · intro s m h1 h2
    simp [setmode, h1, h2, M_bind_apply, M_getS_apply]
  · intro s m h1 h2
    simp [setmode, h1, h2, M_bind_apply, M_getS_apply, UNKNOWN]

/-- C8 counterexample: with BOARD already set, the unrecognized value 99
fails with the mode-conflict error, not the invalid-mode error. -/
theorem C8_cex_invalid_after_set :
    ¬ ((99 : Int) = BOARD ∨ (99 : Int) = BCM) ∧
    (setmode 99 boardState).1 =
      Except.error (Err.value "A different mode has already been set!") := by
  exact ⟨by decide, by decide⟩

/-- C8 witness: repeat BOARD succeeds; BCM after BOARD conflicts; 99 on a
fresh state is invalid. -/
theorem C8_witness :
    ((setmode BOARD boardState).1 = Except.ok () ∧
      ((setmode BOARD boardState).2).mode = BOARD) ∧
    setmode BCM boardState =
      (Except.error (Err.value "A different mode has already been set!"), boardState) ∧
    setmode 99 state0 =
      (Except.error (Err.value "An invalid mode was passed to setmode()"), state0) := by
  refine ⟨C8_setmode_conflicts.1 boardState BOARD (by decide) (by decide),
    C8_setmode_conflicts.2.1 boardState BCM (by decide) (by decide),
    C8_setmode_conflicts.2.2 state0 99 (by decide) (by decide)⟩

/-! ## C5: the GPIO2/3 pull warning path -/

/-- C5 (code bug): claiming logical line 2 as input with a pull-up while
warnings are enabled raises `NameError` instead of warning and succeeding,
because line 659 of the source tests the undefined name `pull`; with
warnings disabled the same call succeeds. -/
theorem C5_pull_nameerror :
    (setup (ChanInput.one 2) IN PUD_UP none bcmState).1 =
      Except.error (Err.nameErr "name pull is not defined") ∧
    (setup (ChanInput.one 2) IN PUD_UP none ((setwarnings false bcmState).2)).1 =
      Except.ok () := by
  exact ⟨by decide, by decide⟩

/-! ## C9: PWM.stop -/

/-- A running PWM object on GPIO 18. -/
def pwm18 : PwmRec := { gpio := 18, frequency := 100, dc := 50, running := true }

/-- BCM-mode state where GPIO 18 is claimed as an output driven low. -/
def out18State : GState :=
  (setup (ChanInput.one 18) OUT PUD_OFF (some 0) bcmState).2

/-- C9 (code bug): when the underlying line is no longer claimed as an
output (here: never claimed, as after a cleanup), `stop` raises the lgpio
error from the un-guarded `gpio_write` call, leaves `_running` true and the
line untouched; on a healthy output line it succeeds, forces the level low
and clears `_running`. -/
theorem C9_stop_raises :
    ((PWM.stop pwm18 bcmState).1 = Except.error (Err.lg "GPIO not allocated") ∧
      ((PWM.stop pwm18 bcmState).2.1).running = true ∧
      ((PWM.stop pwm18 bcmState).2.2).kernel.lines 18 = bcmState.kernel.lines 18) ∧
    ((PWM.stop pwm18 out18State).1 = Except.ok () ∧
      ((PWM.stop pwm18 out18State).2.1).running = false ∧
      (((PWM.stop pwm18 out18State).2.2).kernel.lines 18).level = false) := by
  exact ⟨⟨by decide, by decide, by decide⟩, ⟨by decide, by decide, by decide⟩⟩

/-! ## C10: invalid duty-cycle / frequency leave stored state modified -/

/-- C10: an out-of-range duty cycle (resp. non-positive frequency) makes
`ChangeDutyCycle` (resp. `ChangeFrequency`) raise the validation error, but
only after overwriting the stored field with the invalid value; the kernel
pulse generator is not re-programmed (the module state is unchanged). -/
theorem C10_invalid_value_stored :
    (∀ (self : PwmRec) (s : GState) (dc : Rat), ¬ (0 ≤ dc ∧ dc ≤ 100) →
      PWM.ChangeDutyCycle self dc s =
        (Except.error (Err.value "dutycycle must have a value from 0.0 to 100.0"),
         { self with dc := dc }, s)) ∧
    (∀ (self : PwmRec) (s : GState) (hz : Rat), hz ≤ 0 →
      PWM.ChangeFrequency self hz s =
        (Except.error (Err.value "frequency must be greater than 0.0"),
         { self with frequency := hz }, s)) := by
  constructor
  · intro self s dc h
    simp [PWM.ChangeDutyCycle, h]
  · intro self s hz h
    simp [PWM.ChangeFrequency, h]

/-- C10 witness: duty cycle 150 and frequency 0 on a concrete running
instance. -/
theorem C10_witness :
    ¬ ((0 : Rat) ≤ 150 ∧ (150 : Rat) ≤ 100) ∧
    PWM.ChangeDutyCycle pwm18 150 out18State =
      (Except.error (Err.value "dutycycle must have a value from 0.0 to 100.0"),
       { pwm18 with dc := 150 }, out18State) ∧
    PWM.ChangeFrequency pwm18 0 out18State =
      (Except.error (Err.value "frequency must be greater than 0.0"),
       { pwm18 with frequency := 0 }, out18State) := by
  refine ⟨by decide, ?_, ?_⟩
  · exact C10_invalid_value_stored.1 pwm18 out18State 150 (by decide)
  · exact C10_invalid_value_stored.2 pwm18 out18State 0 (by decide)

/-! ## C2: output setup with absent initial -/

/-- C2 counterexample: with lines 5 (low) and 6 (high) set up as outputs in
one call with no initial value, line 6 is claimed at the level read from
line 5, so reading it afterwards returns 0 although its pre-claim level
was 1. -/
theorem C2_cex_initial_leak :
    (bcmState.kernel.lines 6).level = true ∧
    (setup (ChanInput.many [5, 6]) OUT PUD_OFF none bcmState).1 = Except.ok () ∧
    (input 6 ((setup (ChanInput.many [5, 6]) OUT PUD_OFF none bcmState).2)).1 =
      Except.ok 0 := by
  exact ⟨by decide, by decide, by decide⟩

/-! ## C3 and C4: output -/

theorem to_gpio_bcm (c : Int) (s : GState) (h : s.mode = BCM) (h0 : 0 ≤ c)
    (h54 : c < 54) : to_gpio c s = (Except.ok c.toNat, s) := by
  simp only [to_gpio, M_bind_apply, M_getS_apply, h]
  norm_num [BCM, UNKNOWN]
  simp [h0, h54]

theorem toGpioList_bcm (cs : List Int) : ∀ s : GState, s.mode = BCM →
    (∀ c ∈ cs, 0 ≤ c ∧ c < 54) →
    toGpioList cs s = (Except.ok (cs.map Int.toNat), s) := by
  induction cs with
  | nil => intro s _ _; rfl
  | cons c rest ih =>
    intro s hm hr
    have hc := hr c (List.mem_cons_self _ _)
    simp only [toGpioList, M_bind_apply, to_gpio_bcm c s hm hc.1 hc.2,
      ih s hm (fun x hx => hr x (List.mem_cons_of_mem _ hx)), M_pure_apply,
      List.map_cons]

/-- C3: a single value is broadcast to N > 1 output lines (all end at that
value); any other length mismatch fails with the count-mismatch error
before any line is written (the state is unchanged). -/
theorem C3_output_broadcast_and_mismatch :
    (∀ (s : GState) (cs : List Int) (v : Int),
      s.mode = BCM → s.kernel.isOpen = true →
      1 < cs.length →
      (∀ c ∈ cs, 0 ≤ c ∧ c < 54) →
      (∀ c ∈ cs, ((s.kernel).lines c.toNat).modeBits &&& LG_OUTPUT ≠ 0) →
      (output (ChanInput.many cs) (ValInput.one v) s).1 = Except.ok () ∧
      ∀ c ∈ cs,
        ((((output (ChanInput.many cs) (ValInput.one v) s).2).kernel).lines c.toNat).level
          = (v != 0)) ∧
    (∀ (s : GState) (cs vs : List Int),
      s.mode = BCM →
      (∀ c ∈ cs, 0 ≤ c ∧ c < 54) →
      vs.length ≠ cs.length →
      ¬ (1 < cs.length ∧ vs.length = 1) →
      output (ChanInput.many cs) (ValInput.many vs) s =
        (Except.error (Err.runtime "Number of channels != number of values"), s)) := by
  constructor
  · intro s cs v hm hO hlen hr hbit
    have hglist : gpio_list (ChanInput.many cs) s = (Except.ok (cs.map Int.toNat), s) :=
      toGpioList_bcm cs s hm hr
    have hcond : (cs.map Int.toNat).length ≠ ([(v != 0)] : List Bool).length := by
      simp
      omega
    have hbc : (cs.map Int.toNat).length > 1 ∧ ([(v != 0)] : List Bool).length = 1 := by
      simp
      omega
    have hall : ∀ p ∈ (cs.map Int.toNat).zip
        (List.replicate (cs.map Int.toNat).length (v != 0)),
        ((s.kernel).lines p.1).modeBits &&& LG_OUTPUT ≠ 0 := by
      intro p hp
      have h1 := (List.of_mem_zip hp).1
      obtain ⟨c, hc, hce⟩ := List.mem_map.mp h1
      rw [← hce]
      exact hbit c hc
    have hout : output (ChanInput.many cs) (ValInput.one v) s =
        (Except.ok (), writeFold ((cs.map Int.toNat).zip
          (List.replicate (cs.map Int.toNat).length (v != 0))) s) := by
      simp only [output, M_bind_apply, hglist, M_mraise_apply, M_pure_apply,
        if_pos hcond, if_pos hbc, List.headD_cons]
      exact outputLoop_ok _ s hO hall
    refine ⟨by rw [hout], ?_⟩
    intro c hc
    rw [hout]
    refine writeFold_level_const (v != 0) _ ?_ s c.toNat hO hall ?_
    · intro p hp
      have h2 := (List.of_mem_zip hp).2
      exact (List.eq_of_mem_replicate h2)
    · have hle : (cs.map Int.toNat).length ≤
          (List.replicate (cs.map Int.toNat).length (v != 0)).length := by
        simp
      rw [List.map_fst_zip _ _ hle]
      exact List.mem_map_of_mem Int.toNat hc
  · intro s cs vs hm hr hneq hnb
    have hglist : gpio_list (ChanInput.many cs) s = (Except.ok (cs.map Int.toNat), s) :=
      toGpioList_bcm cs s hm hr
    have hcond : (cs.map Int.toNat).length ≠ (vs.map (fun v => v != 0)).length := by
      simp only [List.length_map]
      omega
    have hnbc : ¬ ((cs.map Int.toNat).length > 1 ∧
        (vs.map (fun v => v != 0)).length = 1) := by
      simp only [List.length_map]
      exact hnb
    simp only [output, M_bind_apply, hglist, M_mraise_apply, M_pure_apply,
      if_pos hcond, if_neg hnbc]

/-- BCM-mode state with lines 5, 6 and 7 claimed as outputs driven low. -/
def outsState : GState :=
  (setup (ChanInput.many [5, 6, 7]) OUT PUD_OFF (some 0) bcmState).2

/-- C3 witness: broadcasting 1 to lines 5, 6, 7 drives them all high;
writing two values to three lines fails with the count-mismatch error and
leaves the state unchanged. -/
theorem C3_witness :
    (output (ChanInput.many [5, 6, 7]) (ValInput.one 1) outsState).1 = Except.ok () ∧
    ((((output (ChanInput.many [5, 6, 7]) (ValInput.one 1) outsState).2).kernel).lines 6).level
      = true ∧
    output (ChanInput.many [5, 6, 7]) (ValInput.many [1, 0]) outsState =
      (Except.error (Err.runtime "Number of channels != number of values"), outsState) := by
  have h1 := C3_output_broadcast_and_mismatch.1 outsState [5, 6, 7] 1
    (by decide) (by decide) (by decide)
    (by decide) (by decide)
  refine ⟨h1.1, ?_, C3_output_broadcast_and_mismatch.2 outsState [5, 6, 7] [1, 0]
    (by decide) (by decide) (by decide) (by decide)⟩
  have h2 := h1.2 6 (by decide)
  simpa using h2

/-- C4: if the write loop fails at the K-th line because it is not claimed
as an output, the loop reports the not-output error, every line before K
keeps the value just written to it, and every line not among those written
(in particular line K and all later lines not repeated earlier) is
unchanged. -/
theorem C4_write_failure_no_rollback :
    ∀ (s : GState) (pre : List (Nat × Bool)) (gK : Nat) (vK : Bool)
      (post : List (Nat × Bool)),
    s.kernel.isOpen = true →
    (∀ p ∈ pre, ((s.kernel).lines p.1).modeBits &&& LG_OUTPUT ≠ 0) →
    ((s.kernel).lines gK).modeBits &&& LG_OUTPUT = 0 →
    (pre.map Prod.fst).Nodup →
    outputLoop (pre ++ (gK, vK) :: post) s =
      (Except.error (Err.runtime "The GPIO channel has not been set up as an OUTPUT"),
        writeFold pre s) ∧
    (∀ p ∈ pre, (((writeFold pre s).kernel).lines p.1).level = p.2) ∧
    (∀ x : Nat, x ∉ pre.map Prod.fst →
      ((writeFold pre s).kernel).lines x = (s.kernel).lines x) := by
  intro s pre gK vK post hO hall hK hnd
  exact ⟨outputLoop_fail_at pre gK vK post s hO hall hK,
    writeFold_level_nodup pre hnd s hO hall,
    fun x hx => writeFold_lines_not_mem pre s x hx⟩

/-- C4 witness: writing to lines 5, 8, 7 where 8 was never set up fails at
line 8; line 5 keeps the value written in the same call, lines 8 and 7 are
unchanged. -/
theorem C4_witness :
    outputLoop [(5, true), (8, true), (7, true)] outsState =
      (Except.error (Err.runtime "The GPIO channel has not been set up as an OUTPUT"),
        writeFold [(5, true)] outsState) ∧
    (((writeFold [(5, true)] outsState).kernel).lines 5).level = true ∧
    ((writeFold [(5, true)] outsState).kernel).lines 8 = outsState.kernel.lines 8 ∧
    ((writeFold [(5, true)] outsState).kernel).lines 7 = outsState.kernel.lines 7 := by
  have h := C4_write_failure_no_rollback outsState [(5, true)] 8 true [(7, true)]
    (by decide) (by decide) (by decide) (by decide)
  exact ⟨h.1, h.2.1 (5, true) (by decide), h.2.2 8 (by decide), h.2.2 7 (by decide)⟩

/-! ## C2: output setup machinery -/

theorem gpio_read_ok (g : Nat) (s : GState) (hO : s.kernel.isOpen = true) :
    gpio_read g s =
      (Except.ok (if (s.kernel.lines g).level then 1 else 0), s) := by
  simp [gpio_read, hO]

theorem gpio_claim_output_ok (g : Nat) (lvl : Bool) (flags : Nat) (s : GState)
    (hO : s.kernel.isOpen = true) :
    gpio_claim_output g lvl flags s =
      (Except.ok (), setLine g
        { modeBits := LG_OUTPUT ||| flags, level := lvl
          debounceMicros := (s.kernel.lines g).debounceMicros
          pwm := none, edgeCode := 0 } s) := by
  simp [gpio_claim_output, hO]

theorem gpio_claim_output_snd_isOpen (g : Nat) (lvl : Bool) (flags : Nat) (s : GState) :
    (((gpio_claim_output g lvl flags s).2).kernel).isOpen = s.kernel.isOpen := by
  simp only [gpio_claim_output]
  split <;> rfl

theorem gpio_claim_output_snd_mode (g : Nat) (lvl : Bool) (flags : Nat) (s : GState) :
    ((gpio_claim_output g lvl flags s).2).mode = s.mode := by
  simp only [gpio_claim_output]
  split <;> rfl

theorem gpio_claim_output_snd_warningsOn (g : Nat) (lvl : Bool) (flags : Nat) (s : GState) :
    ((gpio_claim_output g lvl flags s).2).warningsOn = s.warningsOn := by
  simp only [gpio_claim_output]
  split <;> rfl

theorem gpio_claim_output_snd_lines_ne (g : Nat) (lvl : Bool) (flags : Nat)
    (s : GState) (x : Nat) (hx : x ≠ g) :
    (((gpio_claim_output g lvl flags s).2).kernel).lines x = (s.kernel).lines x := by
  simp only [gpio_claim_output]
  split
  · rw [setLine_lines_ne g x _ s hx]
  · rfl

theorem unset_alert_fst (g : Nat) (s : GState) : (unset_alert g s).1 = Except.ok () := by
  simp only [unset_alert]
  split <;> rfl

theorem unset_alert_snd_kernel (g : Nat) (s : GState) :
    ((unset_alert g s).2).kernel = s.kernel := by
  simp only [unset_alert]
  split <;> rfl

theorem unset_alert_snd_mode (g : Nat) (s : GState) :
    ((unset_alert g s).2).mode = s.mode := by
  simp only [unset_alert]
  split <;> rfl

theorem unset_alert_snd_warningsOn (g : Nat) (s : GState) :
    ((unset_alert g s).2).warningsOn = s.warningsOn := by
  simp only [unset_alert]
  split <;> rfl

theorem unset_alert_snd_alerts_self (g : Nat) (s : GState) :
    ((unset_alert g s).2).alerts g = none := by
  simp only [unset_alert]
  split
  · next h => exact h
  · simp

theorem unset_alert_eq (g : Nat) (s : GState) :
    unset_alert g s = (Except.ok (), (unset_alert g s).2) := by
  simp only [unset_alert]
  split <;> rfl

/-- The cumulative state effect of the OUT branch of the `setup` loop once
the claimed level `b` is fixed: per line, drop any alert record then claim
the line as output at level `b`. -/
def claimOutFold (b : Bool) : List Nat → GState → GState
  | [], s => s
  | g :: rest, s =>
    claimOutFold b rest
      ((gpio_claim_output g b SET_PULL_NONE ((unset_alert g s).2)).2)

theorem claimOutFold_isOpen (b : Bool) (gs : List Nat) : ∀ s : GState,
    ((claimOutFold b gs s).kernel).isOpen = s.kernel.isOpen := by
  induction gs with
  | nil => intro s; rfl
  | cons g rest ih =>
    intro s
    rw [claimOutFold, ih, gpio_claim_output_snd_isOpen, unset_alert_snd_kernel]

theorem claimOutFold_mode (b : Bool) (gs : List Nat) : ∀ s : GState,
    (claimOutFold b gs s).mode = s.mode := by
  induction gs with
  | nil => intro s; rfl
  | cons g rest ih =>
    intro s
    rw [claimOutFold, ih, gpio_claim_output_snd_mode, unset_alert_snd_mode]

theorem claimOutFold_warningsOn (b : Bool) (gs : List Nat) : ∀ s : GState,
    (claimOutFold b gs s).warningsOn = s.warningsOn := by
  induction gs with
  | nil => intro s; rfl
  | cons g rest ih =>
    intro s
    rw [claimOutFold, ih, gpio_claim_output_snd_warningsOn, unset_alert_snd_warningsOn]

theorem claimOutFold_lines_not_mem (b : Bool) (gs : List Nat) : ∀ (s : GState) (x : Nat),
    x ∉ gs → ((claimOutFold b gs s).kernel).lines x = (s.kernel).lines x := by
  induction gs with
  | nil => intro s x _; rfl
  | cons g rest ih =>
    intro s x hx
    simp only [List.mem_cons, not_or] at hx
    rw [claimOutFold, ih _ x hx.2, gpio_claim_output_snd_lines_ne _ _ _ _ x hx.1,
      unset_alert_snd_kernel]

/-- Every line in the list ends up claimed as an output at level `b`. -/
theorem claimOutFold_lines_mem (b : Bool) (gs : List Nat) : ∀ (s : GState) (g : Nat),
    s.kernel.isOpen = true → g ∈ gs →
    (((claimOutFold b gs s).kernel).lines g).modeBits = LG_OUTPUT ||| SET_PULL_NONE ∧
    (((claimOutFold b gs s).kernel).lines g).level = b ∧
    (((claimOutFold b gs s).kernel).lines g).edgeCode = 0 := by
  induction gs with
  | nil => intro s g _ hg; simp at hg
  | cons g0 rest ih =>
    intro s g hO hg
    have hO1 : (((unset_alert g0 s).2).kernel).isOpen = true := by
      rw [unset_alert_snd_kernel]; exact hO
    have hO2 : (((gpio_claim_output g0 b SET_PULL_NONE ((unset_alert g0 s).2)).2).kernel).isOpen
        = true := by
      rw [gpio_claim_output_snd_isOpen]; exact hO1
    by_cases hmem : g ∈ rest
    · rw [claimOutFold]
      exact ih _ g hO2 hmem
    · have hgg : g = g0 := by
        rcases List.mem_cons.mp hg with h | h
        · exact h
        · exact absurd h hmem
      subst hgg
      rw [claimOutFold, claimOutFold_lines_not_mem b rest _ g hmem,
        gpio_claim_output_ok g b SET_PULL_NONE _ hO1]
      simp

/-- Once the claimed level is fixed (the Python `initial` local is bound),
the OUT branch of the setup loop is exactly `claimOutFold`. -/
theorem setupLoop_out_some (gs : List Nat) : ∀ (s : GState) (b : Bool),
    s.kernel.isOpen = true →
    (∀ g ∈ gs, ¬ (s.warningsOn = true ∧ (g = 2 ∨ g = 3))) →
    setupLoop OUT PUD_OFF gs (some b) s = (Except.ok (), claimOutFold b gs s) := by
  induction gs with
  | nil => intro s b _ _; rfl
  | cons g rest ih =>
    intro s b hO hw
    have hwg := hw g (List.mem_cons_self _ _)
    have hO1 : (((unset_alert g s).2).kernel).isOpen = true := by
      rw [unset_alert_snd_kernel]; exact hO
    have hco := gpio_claim_output_ok g b SET_PULL_NONE ((unset_alert g s).2) hO1
    simp only [setupLoop, M_bind_apply, M_getS_apply]
    rw [if_neg hwg, if_neg (show ¬ ((OUT : Int) = IN) by decide)]
    simp only [if_true, ite_true, if_pos (show (OUT : Int) = OUT from rfl)]
    rw [bind_ok _ (unset_alert_eq g s)]
    rw [bind_ok _ (M_pure_apply b ((unset_alert g s).2))]
    rw [bind_ok _ (show gpio_claim_output g b SET_PULL_NONE ((unset_alert g s).2)
        = (Except.ok (), (gpio_claim_output g b SET_PULL_NONE ((unset_alert g s).2)).2) from by
      rw [hco])]
    rw [claimOutFold]
    refine ih _ b ?_ ?_
    · rw [gpio_claim_output_snd_isOpen, unset_alert_snd_kernel]
      exact hO
    · intro x hx
      rw [gpio_claim_output_snd_warningsOn, unset_alert_snd_warningsOn]
      exact hw x (List.mem_cons_of_mem _ hx)

/-- C2 (amended): in a multi-channel output setup with `initial` absent,
the level read for the FIRST channel is reused for every channel of the
call (the Python `initial` local is rebound inside the loop), so each line
is claimed at the first line's pre-claim level — only the first line is
claimed at its own pre-claim level — and a subsequent read of any line in
the list returns that first level. -/
theorem C2_setup_initial_first_line :
    ∀ (s : GState) (c0 : Int) (cs : List Int),
    s.mode = BCM → s.kernel.isOpen = true →
    (∀ c ∈ c0 :: cs, 0 ≤ c ∧ c < 54) →
    (∀ c ∈ c0 :: cs, ¬ (s.warningsOn = true ∧ (c.toNat = 2 ∨ c.toNat = 3))) →
    (setup (ChanInput.many (c0 :: cs)) OUT PUD_OFF none s).1 = Except.ok () ∧
    (∀ c ∈ c0 :: cs,
      ((((setup (ChanInput.many (c0 :: cs)) OUT PUD_OFF none s).2).kernel).lines c.toNat).level
        = ((s.kernel).lines c0.toNat).level ∧
      (input c ((setup (ChanInput.many (c0 :: cs)) OUT PUD_OFF none s).2)).1
        = Except.ok (if ((s.kernel).lines c0.toNat).level then 1 else 0)) := by
  intro s c0 cs hm hO hr hw
  have hc0r := hr c0 (List.mem_cons_self _ _)
  have hw0 := hw c0 (List.mem_cons_self _ _)
  have hwn : ∀ g ∈ (c0 :: cs).map Int.toNat,
      ¬ (s.warningsOn = true ∧ (g = 2 ∨ g = 3)) := by
    intro g hg
    obtain ⟨c, hc, hce⟩ := List.mem_map.mp hg
    rw [← hce]
    exact hw c hc
  have hO1 : (((unset_alert c0.toNat s).2).kernel).isOpen = true := by
    rw [unset_alert_snd_kernel]; exact hO
  have hread : gpio_read c0.toNat ((unset_alert c0.toNat s).2)
      = (Except.ok (if ((s.kernel).lines c0.toNat).level then 1 else 0),
         (unset_alert c0.toNat s).2) := by
    rw [gpio_read_ok _ _ hO1, unset_alert_snd_kernel]
  have hinit : (((if ((s.kernel).lines c0.toNat).level then (1 : Nat) else 0) != 0))
      = ((s.kernel).lines c0.toNat).level := by
    cases hL : ((s.kernel).lines c0.toNat).level <;> simp [hL]
  have hco := gpio_claim_output_ok c0.toNat ((s.kernel).lines c0.toNat).level
    SET_PULL_NONE ((unset_alert c0.toNat s).2) hO1
  -- the whole call reduces to the claim fold seeded with the first level
  have hsetup : setup (ChanInput.many (c0 :: cs)) OUT PUD_OFF none s =
      (Except.ok (),
       claimOutFold ((s.kernel).lines c0.toNat).level ((c0 :: cs).map Int.toNat) s) := by
    simp only [setup, M_bind_apply, if_true, ite_true]
    rw [if_neg (show ¬ ((PUD_OFF : Int) ≠ PUD_OFF) by decide)]
    rw [bind_ok _ (M_pure_apply (Option.map (fun i => i != 0) none) s)]
    simp only [Option.map_none']
    rw [bind_ok _ (show gpio_list (ChanInput.many (c0 :: cs)) s
        = (Except.ok ((c0 :: cs).map Int.toNat), s) from toGpioList_bcm (c0 :: cs) s hm hr)]
    simp only [List.map_cons, setupLoop, M_bind_apply, M_getS_apply]
    rw [if_neg hw0, if_neg (show ¬ ((OUT : Int) = IN) by decide)]
    simp only [if_true, ite_true, if_pos (show (OUT : Int) = OUT from rfl)]
    rw [bind_ok _ (unset_alert_eq c0.toNat s)]
    rw [bind_ok _ hread]
    rw [bind_ok _ (M_pure_apply _ ((unset_alert c0.toNat s).2))]
    rw [hinit]
    rw [bind_ok _ (show gpio_claim_output c0.toNat ((s.kernel).lines c0.toNat).level
          SET_PULL_NONE ((unset_alert c0.toNat s).2)
        = (Except.ok (), (gpio_claim_output c0.toNat ((s.kernel).lines c0.toNat).level
            SET_PULL_NONE ((unset_alert c0.toNat s).2)).2) from by rw [hco])]
    rw [show (claimOutFold ((s.kernel).lines c0.toNat).level
        (c0.toNat :: cs.map Int.toNat) s)
      = claimOutFold ((s.kernel).lines c0.toNat).level (cs.map Int.toNat)
          ((gpio_claim_output c0.toNat ((s.kernel).lines c0.toNat).level SET_PULL_NONE
            ((unset_alert c0.toNat s).2)).2) from rfl]
    refine setupLoop_out_some (cs.map Int.toNat) _ _ ?_ ?_
    · rw [gpio_claim_output_snd_isOpen, unset_alert_snd_kernel]
      exact hO
    · intro x hx
      rw [gpio_claim_output_snd_warningsOn, unset_alert_snd_warningsOn]
      exact hwn x (by simp only [List.map_cons, List.mem_cons]; right; exact hx)
  refine ⟨by rw [hsetup], ?_⟩
  intro c hc
  have hcr := hr c hc
  have hmem : c.toNat ∈ (c0 :: cs).map Int.toNat := List.mem_map_of_mem Int.toNat hc
  have hline := claimOutFold_lines_mem ((s.kernel).lines c0.toNat).level
    ((c0 :: cs).map Int.toNat) s c.toNat hO hmem
  have hm2 : (claimOutFold ((s.kernel).lines c0.toNat).level
      ((c0 :: cs).map Int.toNat) s).mode = BCM := by
    rw [claimOutFold_mode]; exact hm
  have hO2 : ((claimOutFold ((s.kernel).lines c0.toNat).level
      ((c0 :: cs).map Int.toNat) s).kernel).isOpen = true := by
    rw [claimOutFold_isOpen]; exact hO
  constructor
  · rw [hsetup]
    exact hline.2.1
  · rw [hsetup]
    simp only [input]
    rw [bind_ok _ (to_gpio_bcm c _ hm2 hcr.1 hcr.2)]
    have hinuse : in_use c.toNat (claimOutFold ((s.kernel).lines c0.toNat).level
        ((c0 :: cs).map Int.toNat) s)
        = (Except.ok true, claimOutFold ((s.kernel).lines c0.toNat).level
            ((c0 :: cs).map Int.toNat) s) := by
      simp only [in_use, M_bind_apply, gpio_get_mode_ok _ _ hO2, hline.1, hline.2.2,
        M_pure_apply, Nat.zero_shiftLeft, ite_self, Nat.or_zero]
      norm_num [LG_OUTPUT, SET_PULL_NONE, LG_PULL_NONE, LG_MODES, LG_INPUT, LG_ALERT,
        LG_GROUP, LG_PULL_UP, LG_PULL_DOWN]
      decide
    rw [bind_ok _ hinuse]
    rw [if_neg (show ¬ (¬ (true : Bool) = true) by simp)]
    rw [gpio_read_ok _ _ hO2, hline.2.1]

/-- C2 witness: setting up lines 5 (low) and 6 (high) as outputs with no
initial value claims line 6 at line 5's pre-claim level, and reading line 6
afterwards returns that level. -/
theorem C2_witness :
    (setup (ChanInput.many [5, 6]) OUT PUD_OFF none bcmState).1 = Except.ok () ∧
    ((((setup (ChanInput.many [5, 6]) OUT PUD_OFF none bcmState).2).kernel).lines 6).level
      = ((bcmState.kernel).lines 5).level ∧
    (input 6 ((setup (ChanInput.many [5, 6]) OUT PUD_OFF none bcmState).2)).1
      = Except.ok (if ((bcmState.kernel).lines 5).level then 1 else 0) := by
  have h := C2_setup_initial_first_line bcmState 5 [6]
    (by decide) (by decide) (by decide) (by decide)
  have h6 := h.2 6 (by decide)
  exact ⟨h.1, h6.1, h6.2⟩

/-! ## C7: event_detected -/

/-- Package the two projections of `to_gpio` into one equation. -/
theorem to_gpio_eq (channel : Int) (s : GState) (g : Nat)
    (h : (to_gpio channel s).1 = Except.ok g) :
    to_gpio channel s = (Except.ok g, s) := by
  have hpair : to_gpio channel s = ((to_gpio channel s).1, (to_gpio channel s).2) := rfl
  rw [hpair, h, to_gpio_state]

/-- Polling a line whose alert flag is clear returns false. -/
theorem event_detected_clear (s : GState) (ch : Int) (g : Nat) (a : Alert)
    (ht : (to_gpio ch s).1 = Except.ok g) (ha : s.alerts g = some a)
    (hd : a.detectedFlag = false) :
    (event_detected ch s).1 = Except.ok false := by
  simp only [event_detected, catchKey]
  rw [bind_ok _ (to_gpio_eq ch s g ht)]
  simp [alertDetected, ha, hd]

/-- C7: `event_detected` returns the detected flag and clears it — after an
edge it returns true once, then false on the next poll — and on a channel
whose line has no Alert it returns false without failing; `_Alert._call`
(any non-watchdog level) sets the flag again. -/
theorem C7_event_detected_clears :
    (∀ (s : GState) (ch : Int) (g : Nat),
      (to_gpio ch s).1 = Except.ok g → s.alerts g = none →
      event_detected ch s = (Except.ok false, s)) ∧
    (∀ (s : GState) (ch : Int) (g : Nat) (a : Alert),
      (to_gpio ch s).1 = Except.ok g → s.alerts g = some a →
      a.detectedFlag = true →
      (event_detected ch s).1 = Except.ok true ∧
      ((event_detected ch s).2).alerts g = some { a with detectedFlag := false } ∧
      (event_detected ch ((event_detected ch s).2)).1 = Except.ok false) ∧
    (∀ (s : GState) (g : Nat) (a : Alert) (level : Nat),
      s.alerts g = some a → level ≠ 2 →
      (alertCall g level s).1 = Except.ok () ∧
      ((alertCall g level s).2).alerts g = some { a with detectedFlag := true }) := by
  refine ⟨?_, ?_, ?_⟩
  · intro s ch g ht ha
    simp only [event_detected, catchKey]
    rw [bind_ok _ (to_gpio_eq ch s g ht)]
    simp only [alertDetected, ha, M_pure_apply]
  · intro s ch g a ht ha hd
    have hev : event_detected ch s =
        (Except.ok true,
         { s with alerts := fun x =>
            if x = g then some { a with detectedFlag := false } else s.alerts x }) := by
      simp only [event_detected, catchKey]
      rw [bind_ok _ (to_gpio_eq ch s g ht)]
      simp only [alertDetected, ha, hd, if_true, ite_true]
    have hs2g : ((event_detected ch s).2).alerts g =
        some { a with detectedFlag := false } := by
      rw [hev]
      simp
    refine ⟨by rw [hev], hs2g, ?_⟩
    have hmode : ((event_detected ch s).2).mode = s.mode := by
      rw [hev]
    have ht2 : (to_gpio ch ((event_detected ch s).2)).1 = Except.ok g := by
      rw [to_gpio_congr ch s _ hmode]
      exact ht
    exact event_detected_clear _ ch g _ ht2 hs2g rfl
  · intro s g a level ha hl
    constructor
    · simp [alertCall, hl]
    · simp [alertCall, hl, ha]

/-- An Alert record for GPIO 4 watching rising edges, no debounce, no
callbacks, flag clear. -/
def alert4 : Alert :=
  { gpio := 4, edgeStored := RISING, bouncetime := none, callbacks := [],
    detectedFlag := false }

/-- BCM-mode state with an Alert registered for GPIO 4 (flag clear). -/
def alertState : GState :=
  { bcmState with alerts := fun g => if g = 4 then some alert4 else none }

/-- The same state after one qualifying edge was delivered for GPIO 4. -/
def alertStateDet : GState := (alertCall 4 1 alertState).2

/-- C7 witness: after one edge on GPIO 4, polling returns true then false;
polling GPIO 5, which has no Alert, returns false without failing. -/
theorem C7_witness :
    (alertCall 4 1 alertState).1 = Except.ok () ∧
    (alertStateDet.alerts 4).map Alert.detectedFlag = some true ∧
    (event_detected 4 alertStateDet).1 = Except.ok true ∧
    (event_detected 4 ((event_detected 4 alertStateDet).2)).1 = Except.ok false ∧
    event_detected 5 alertStateDet = (Except.ok false, alertStateDet) := by
  have hcall := C7_event_detected_clears.2.2 alertState 4 alert4 1
    (by decide) (by decide)
  have hpoll := C7_event_detected_clears.2.1 alertStateDet 4 4
    { alert4 with detectedFlag := true }
    (by decide) (by decide) (by decide)
  have hnone := C7_event_detected_clears.1 alertStateDet 5 5 (by decide) (by decide)
  exact ⟨hcall.1, by decide, hpoll.1, hpoll.2.2, hnone⟩

/-! ## C6: wait_for_edge machinery -/

theorem catchKey_pass {α : Type} {x handler : M α} {s s2 : GState} {a : α}
    (he : x s = (Except.ok a, s2)) : catchKey x handler s = (Except.ok a, s2) := by
  simp [catchKey, he]

theorem catchKey_runtime {α : Type} {x handler : M α} {s s2 : GState} {msg : String}
    (he : x s = (Except.error (Err.runtime msg), s2)) :
    catchKey x handler s = (Except.error (Err.runtime msg), s2) := by
  simp [catchKey, he]

theorem catchKey_key {α : Type} {x handler : M α} {s s2 : GState}
    (he : x s = (Except.error Err.keyErr, s2)) :
    catchKey x handler s = handler s2 := by
  simp [catchKey, he]

theorem check_input_ok (m : Nat) (msg : String)
    (h : m &&& (LG_INPUT ||| LG_ALERT) ≠ 0) : check_input m msg = Except.ok () := by
  simp [check_input, h]

theorem check_edge_ok (edge : Int)
    (h : edge = FALLING ∨ edge = RISING ∨ edge = BOTH) :
    check_edge edge = Except.ok () := by
  simp [check_edge, h]

theorem check_bounce_valid (bt : Option Int)
    (h : bt = none ∨ ∃ v, bt = some v ∧ 0 < v) :
    check_bounce bt = Except.ok bt := by
  rcases h with rfl | ⟨v, rfl, hv⟩
  · rfl
  · have h1 : ¬ ((some v : Option Int) = some (-666)) := by
      simp only [Option.some_inj]
      omega
    have h2 : ¬ (v ≤ 0) := by omega
    simp [check_bounce, h1, h2]

theorem gpio_claim_alert_ok (g : Nat) (eflag : Int) (lflags : Nat) (s : GState)
    (hO : s.kernel.isOpen = true) :
    gpio_claim_alert g eflag lflags s =
      (Except.ok (), setLine g
        { modeBits := LG_ALERT ||| lflags, level := (s.kernel.lines g).level
          debounceMicros := (s.kernel.lines g).debounceMicros
          pwm := none, edgeCode := eflag.toNat } s) := by
  simp [gpio_claim_alert, hO]

theorem gpio_set_debounce_ok (g : Nat) (micros : Int) (s : GState)
    (hO : s.kernel.isOpen = true) :
    gpio_set_debounce_micros g micros s =
      (Except.ok (), setLine g { s.kernel.lines g with debounceMicros := micros } s) := by
  simp [gpio_set_debounce_micros, hO]

/-- The lgpio edge flag chosen by `_set_alert` for a valid RPi edge. -/
def edgeToFlag (edge : Int) : Int :=
  if edge = RISING then RISING_EDGE
  else if edge = FALLING then FALLING_EDGE
  else BOTH_EDGES

/-- The fresh `_Alert` record built by `_set_alert`. -/
def mkAlert (g : Nat) (edge : Int) (bt : Option Int) : Alert :=
  { gpio := g, edgeStored := edge, bouncetime := bt, callbacks := [],
    detectedFlag := false }

/-- `_set_alert` on a valid edge succeeds, returning the fresh `_Alert`
record, and registers it; the rest of the resulting state is existential
(the kernel line carries the alert claim and debounce). -/
theorem set_alert_ok (g : Nat) (mode : Nat) (edge : Int) (bt : Option Int)
    (s : GState) (hO : s.kernel.isOpen = true)
    (hedge : edge = FALLING ∨ edge = RISING ∨ edge = BOTH) :
    ∃ s2 : GState,
      set_alert g mode edge bt s = (Except.ok (mkAlert g edge bt), s2) ∧
      s2.alerts g = some (mkAlert g edge bt) := by
  rcases hbt : bt with _ | v
  · subst hbt
    rcases hedge with h | h | h <;> subst h <;>
      refine ⟨(set_alert g mode _ none s).2, pair_fst_eq ?_, ?_⟩ <;>
      · simp only [set_alert]
        norm_num [RISING, FALLING, BOTH]
        rw [gpio_claim_alert_ok g _ (mode &&& LG_PULLS) s hO]
        simp [mkAlert]
  · subst hbt
    rcases hedge with h | h | h <;> subst h <;>
      refine ⟨(set_alert g mode _ (some v) s).2, pair_fst_eq ?_, ?_⟩ <;>
      · simp only [set_alert]
        norm_num [RISING, FALLING, BOTH]
        rw [gpio_claim_alert_ok g _ (mode &&& LG_PULLS) s hO]
        simp only []
        rw [gpio_set_debounce_ok g (v * 1000) _ (by rw [setLine_isOpen]; exact hO)]
        simp only []
        rw [gpio_set_debounce_ok g (v * 1000) _
          (by rw [setLine_isOpen, setLine_isOpen]; exact hO)]
        simp [mkAlert]

theorem liftE_ok {α : Type} {e : Except Err α} {a : α} (s : GState)
    (h : e = Except.ok a) : liftE e s = (Except.ok a, s) := by
  rw [M_liftE_apply, h]

/-- The lgpio edge constants never equal the RPi edge constants; this is
the mismatch behind the API2 conflict (see `C6`). -/
theorem alertEdge_api1 (a : Alert) (s : GState)
    (hO : s.kernel.isOpen = true) (hapi : s.kernel.api2 = false)
    (hcode : ((s.kernel).lines a.gpio).modeBits >>> 17 &&& 3 = 0) :
    alertEdge a s = (Except.ok a.edgeStored, s) := by
  simp only [alertEdge]
  rw [bind_ok _ (gpio_get_mode_ok a.gpio s hO)]
  rw [hapi]
  simp [hcode]

/-- C6 (amended): for `wait_for_edge` on a valid input channel with a valid
edge, debounce and timeout:
(1) if the line is already watched with matching edge and debounce, the
Alert has no registered callbacks, and the kernel does not expose edge bits
(gpiochip API1 fallback), the wait reuses the existing Alert without error
and does not tear the watch down (the one-shot internal callback stays
appended);
(2) a wait on an input-claimed line with no alert claim creates the watch
and tears it down before returning;
(3) a non-positive timeout fails with the invalid-argument error;
(4) a wait whose stored edge or debounce differs from the request fails
with the conflicting-watch error.
(When the kernel does expose edge bits — API2 — even a matching wait fails
with the conflicting-watch error, because the `edge` property returns lgpio
edge constants which are compared against RPi edge constants; see the
counterexample.) -/
theorem C6_wait_for_edge_behaviour :
    (∀ (s : GState) (ch edge : Int) (bt : Option Int) (t : Int) (fires : Bool) (a : Alert),
      s.mode = BCM → 0 ≤ ch → ch < 54 →
      s.kernel.isOpen = true → s.kernel.api2 = false →
      ((s.kernel).lines ch.toNat).modeBits = LG_ALERT ||| SET_PULL_NONE →
      s.alerts ch.toNat = some a →
      a.gpio = ch.toNat →
      (edge = FALLING ∨ edge = RISING ∨ edge = BOTH) →
      a.edgeStored = edge →
      (bt = none ∨ ∃ v, bt = some v ∧ 0 < v) →
      a.bouncetime = bt →
      a.callbacks = [] →
      0 < t →
      (wait_for_edge ch edge bt (some t) fires s).1
        = Except.ok (if fires then some ch else none) ∧
      ((wait_for_edge ch edge bt (some t) fires s).2).alerts ch.toNat
        = some { a with callbacks := a.callbacks ++ [0] }) ∧
    (∀ (s : GState) (ch edge : Int) (bt : Option Int) (t : Int) (fires : Bool),
      s.mode = BCM → 0 ≤ ch → ch < 54 →
      s.kernel.isOpen = true →
      ((s.kernel).lines ch.toNat).modeBits = LG_INPUT ||| SET_PULL_NONE →
      ((s.kernel).lines ch.toNat).edgeCode = 0 →
      (edge = FALLING ∨ edge = RISING ∨ edge = BOTH) →
      (bt = none ∨ ∃ v, bt = some v ∧ 0 < v) →
      0 < t →
      (wait_for_edge ch edge bt (some t) fires s).1
        = Except.ok (if fires then some ch else none) ∧
      ((wait_for_edge ch edge bt (some t) fires s).2).alerts ch.toNat = none) ∧
    (∀ (s : GState) (ch edge : Int) (bt : Option Int) (t : Int) (fires : Bool),
      s.mode = BCM → 0 ≤ ch → ch < 54 →
      s.kernel.isOpen = true →
      ((s.kernel).lines ch.toNat).modeBits &&& (LG_INPUT ||| LG_ALERT) ≠ 0 →
      (edge = FALLING ∨ edge = RISING ∨ edge = BOTH) →
      (bt = none ∨ ∃ v, bt = some v ∧ 0 < v) →
      t ≤ 0 →
      wait_for_edge ch edge bt (some t) fires s
        = (Except.error (Err.value "Timeout must be greater than 0"), s)) ∧
    (∀ (s : GState) (ch edge : Int) (bt : Option Int) (t : Int) (fires : Bool) (a : Alert),
      s.mode = BCM → 0 ≤ ch → ch < 54 →
      s.kernel.isOpen = true → s.kernel.api2 = false →
      ((s.kernel).lines ch.toNat).modeBits = LG_ALERT ||| SET_PULL_NONE →
      s.alerts ch.toNat = some a →
      a.gpio = ch.toNat →
      (edge = FALLING ∨ edge = RISING ∨ edge = BOTH) →
      (bt = none ∨ ∃ v, bt = some v ∧ 0 < v) →
      0 < t →
      (a.edgeStored ≠ edge ∨ a.bouncetime ≠ bt) →
      wait_for_edge ch edge bt (some t) fires s
        = (Except.error
            (Err.runtime "Conflicting edge detection already enabled for this GPIO channel"),
           s)) := by
  refine ⟨?_, ?_, ?_, ?_⟩
  · -- (1) reuse of a matching watch, API1, no callbacks
    intro s ch edge bt t fires a hm h0 h54 hO hapi hbits ha hag hedge hae hbt hab hcb ht
    have hword : gpio_get_mode ch.toNat s =
        (Except.ok (LG_ALERT ||| SET_PULL_NONE), s) := by
      rw [gpio_get_mode_ok ch.toNat s hO, hbits, hapi]
      simp
    have hchin : check_input (LG_ALERT ||| SET_PULL_NONE)
        "You must setup() the GPIO channel as an input first" = Except.ok () :=
      check_input_ok _ _ (by decide)
    have hget : get_alert ch.toNat (LG_ALERT ||| SET_PULL_NONE) edge bt s =
        (Except.ok a, s) := by
      simp only [get_alert]
      rw [if_neg (show ¬ ((LG_ALERT ||| SET_PULL_NONE) &&& LG_ALERT = 0) by decide)]
      rw [bind_ok _ (M_getS_apply s), ha]
      simp only []
      rw [bind_ok _ (alertEdge_api1 a s hO hapi (by rw [hag, hbits]; decide))]
      rw [if_neg (show ¬ (a.edgeStored ≠ edge ∨ a.bouncetime ≠ bt) by simp [hae, hab])]
      rfl
    have hrun : wait_for_edge ch edge bt (some t) fires s =
        (Except.ok (if fires then some ch else none),
         { s with
           alerts := fun x =>
             if x = ch.toNat then
               (s.alerts x).map (fun a => { a with callbacks := a.callbacks ++ [0] })
             else s.alerts x }) := by
      simp only [wait_for_edge]
      rw [bind_ok _ (to_gpio_bcm ch s hm h0 h54)]
      rw [bind_ok _ hword]
      rw [bind_ok _ (liftE_ok s hchin)]
      rw [bind_ok _ (liftE_ok s (check_edge_ok edge hedge))]
      rw [bind_ok _ (liftE_ok s (check_bounce_valid bt hbt))]
      rw [if_neg (show ¬ (((some t : Option Int).any fun x => x ≤ 0) = true) by
        simp only [Option.any, decide_eq_true_eq]
        omega)]
      simp only [M_bind_apply, catchKey]
      rw [hget]
      simp only []
      rw [if_neg (show ¬ (a.callbacks ≠ []) by simp [hcb])]
      simp only [M_pure_apply, M_modifyS_apply]
      simp
    constructor
    · rw [hrun]
    · rw [hrun]
      simp [ha]
  · -- (2) a wait that created the watch tears it down
    intro s ch edge bt t fires hm h0 h54 hO hbits hec hedge hbt ht
    have hword : gpio_get_mode ch.toNat s =
        (Except.ok (LG_INPUT ||| SET_PULL_NONE), s) := by
      rw [gpio_get_mode_ok ch.toNat s hO, hbits, hec]
      simp [Nat.zero_shiftLeft]
    have hchin : check_input (LG_INPUT ||| SET_PULL_NONE)
        "You must setup() the GPIO channel as an input first" = Except.ok () :=
      check_input_ok _ _ (by decide)
    obtain ⟨s2, hsa, _⟩ :=
      set_alert_ok ch.toNat (LG_INPUT ||| SET_PULL_NONE) edge bt s hO hedge
    have hget : get_alert ch.toNat (LG_INPUT ||| SET_PULL_NONE) edge bt s =
        (Except.error Err.keyErr, s) := by
      simp only [get_alert]
      rw [if_pos (show (LG_INPUT ||| SET_PULL_NONE) &&& LG_ALERT = 0 by decide)]
      rfl
    have hrun : wait_for_edge ch edge bt (some t) fires s =
        (Except.ok (if fires then some ch else none),
         (unset_alert ch.toNat
           { s2 with
             alerts := fun x =>
               if x = ch.toNat then
                 (s2.alerts x).map (fun a => { a with callbacks := a.callbacks ++ [0] })
               else s2.alerts x }).2) := by
      simp only [wait_for_edge]
      rw [bind_ok _ (to_gpio_bcm ch s hm h0 h54)]
      rw [bind_ok _ hword]
      rw [bind_ok _ (liftE_ok s hchin)]
      rw [bind_ok _ (liftE_ok s (check_edge_ok edge hedge))]
      rw [bind_ok _ (liftE_ok s (check_bounce_valid bt hbt))]
      rw [if_neg (show ¬ (((some t : Option Int).any fun x => x ≤ 0) = true) by
        simp only [Option.any, decide_eq_true_eq]
        omega)]
      simp only [M_bind_apply, catchKey]
      rw [hget]
      simp only []
      rw [hsa]
      simp only [M_pure_apply, M_modifyS_apply]
      simp only [if_true, ite_true, M_bind_apply]
      rw [unset_alert_eq ch.toNat _]
      simp
    constructor
    · rw [hrun]
    · rw [hrun]
      exact unset_alert_snd_alerts_self _ _
  · -- (3) non-positive timeout
    intro s ch edge bt t fires hm h0 h54 hO hin hedge hbt ht
    have hchin : check_input (((s.kernel).lines ch.toNat).modeBits |||
        (if s.kernel.api2 then ((s.kernel).lines ch.toNat).edgeCode <<< 17 else 0))
        "You must setup() the GPIO channel as an input first" = Except.ok () := by
      refine check_input_ok _ _ ?_
      rw [modeWord_and_low _ _ _ _ (by decide)]
      exact hin
    simp only [wait_for_edge]
    rw [bind_ok _ (to_gpio_bcm ch s hm h0 h54)]
    rw [bind_ok _ (gpio_get_mode_ok ch.toNat s hO)]
    rw [bind_ok _ (liftE_ok s hchin)]
    rw [bind_ok _ (liftE_ok s (check_edge_ok edge hedge))]
    rw [bind_ok _ (liftE_ok s (check_bounce_valid bt hbt))]
    rw [if_pos (show (((some t : Option Int).any fun x => x ≤ 0) = true) by
      simp only [Option.any, decide_eq_true_eq]
      omega)]
    rfl
  · -- (4) conflicting stored edge or debounce
    intro s ch edge bt t fires a hm h0 h54 hO hapi hbits ha hag hedge hbt ht hdiff
    have hword : gpio_get_mode ch.toNat s =
        (Except.ok (LG_ALERT ||| SET_PULL_NONE), s) := by
      rw [gpio_get_mode_ok ch.toNat s hO, hbits, hapi]
      simp
    have hchin : check_input (LG_ALERT ||| SET_PULL_NONE)
        "You must setup() the GPIO channel as an input first" = Except.ok () :=
      check_input_ok _ _ (by decide)
    have hget : get_alert ch.toNat (LG_ALERT ||| SET_PULL_NONE) edge bt s =
        (Except.error
          (Err.runtime "Conflicting edge detection already enabled for this GPIO channel"),
         s) := by
      simp only [get_alert]
      rw [if_neg (show ¬ ((LG_ALERT ||| SET_PULL_NONE) &&& LG_ALERT = 0) by decide)]
      rw [bind_ok _ (M_getS_apply s), ha]
      simp only []
      rw [bind_ok _ (alertEdge_api1 a s hO hapi (by rw [hag, hbits]; decide))]
      rw [if_pos hdiff]
      rfl
    simp only [wait_for_edge]
    rw [bind_ok _ (to_gpio_bcm ch s hm h0 h54)]
    rw [bind_ok _ hword]
    rw [bind_ok _ (liftE_ok s hchin)]
    rw [bind_ok _ (liftE_ok s (check_edge_ok edge hedge))]
    rw [bind_ok _ (liftE_ok s (check_bounce_valid bt hbt))]
    rw [if_neg (show ¬ (((some t : Option Int).any fun x => x ≤ 0) = true) by
      simp only [Option.any, decide_eq_true_eq]
      omega)]
    simp only [M_bind_apply, catchKey]
    rw [hget]

/-- A kernel line claimed for alerts (rising edge) with no pull. -/
def watchedLine : KLine :=
  { modeBits := LG_ALERT ||| SET_PULL_NONE, level := false, debounceMicros := 0,
    pwm := none, edgeCode := 1 }

/-- BCM-mode, gpiochip-API2 state where GPIO 4 is watched for rising edges
(kernel alert claim plus registered `_Alert`, no callbacks). -/
def watchedState2 : GState :=
  { bcmState with
    alerts := fun g => if g = 4 then some alert4 else none,
    kernel := { bcmState.kernel with
                lines := fun g => if g = 4 then watchedLine else initLines g } }

/-- The same watched state on gpiochip API1 (no edge bits reported). -/
def watchedState1 : GState :=
  { watchedState2 with kernel := { watchedState2.kernel with api2 := false } }

/-- `alert4` with one user callback registered. -/
def alert4cb : Alert := { alert4 with callbacks := [7] }

/-- The API1 watched state with a user callback registered on the Alert. -/
def watchedState1cb : GState :=
  { watchedState1 with alerts := fun g => if g = 4 then some alert4cb else none }

/-- C6 counterexample: a wait with MATCHING edge and debounce on an
already-watched line fails with the conflicting-watch error in two cases
the claim does not allow: (a) on gpiochip API2, where the `edge` property
returns lgpio edge constants (1/2/3) that are compared against the RPi
constants (31/32/33) and never match; (b) whenever the existing Alert
already has a registered callback (deliberate RPi.GPIO bug compatibility).
-/
theorem C6_cex_matching_wait_conflicts :
    (wait_for_edge 4 RISING none (some 100) true watchedState2).1 =
      Except.error
        (Err.runtime "Conflicting edge detection already enabled for this GPIO channel") ∧
    (wait_for_edge 4 RISING none (some 100) true watchedState1cb).1 =
      Except.error
        (Err.runtime "Conflicting edge detection already enabled for this GPIO channel") := by
  exact ⟨by decide, by decide⟩

/-- BCM-mode state with GPIO 4 claimed as an input (no alert). -/
def inState : GState := (setup (ChanInput.one 4) IN PUD_OFF none bcmState).2

/-- C6 witness: on API1 a matching wait reuses the watch and leaves it up;
a wait on an unwatched input line creates and tears down the watch; a zero
timeout is rejected; a differing edge conflicts. -/
theorem C6_witness :
    (wait_for_edge 4 RISING none (some 100) true watchedState1).1 =
      Except.ok (some 4) ∧
    ((wait_for_edge 4 RISING none (some 100) true watchedState1).2).alerts 4 =
      some { alert4 with callbacks := [0] } ∧
    (wait_for_edge 4 RISING none (some 100) false inState).1 = Except.ok none ∧
    ((wait_for_edge 4 RISING none (some 100) false inState).2).alerts 4 = none ∧
    wait_for_edge 4 RISING none (some 0) true inState =
      (Except.error (Err.value "Timeout must be greater than 0"), inState) ∧
    wait_for_edge 4 FALLING none (some 100) true watchedState1 =
      (Except.error
        (Err.runtime "Conflicting edge detection already enabled for this GPIO channel"),
       watchedState1) := by
  have h1 := C6_wait_for_edge_behaviour.1 watchedState1 4 RISING none 100 true alert4
    (by decide) (by decide) (by decide) (by decide) (by decide) (by decide)
    (by decide) (by decide) (by decide) (by decide) (Or.inl rfl) (by decide)
    (by decide) (by decide)
  have h2 := C6_wait_for_edge_behaviour.2.1 inState 4 RISING none 100 false
    (by decide) (by decide) (by decide) (by decide) (by decide) (by decide)
    (by decide) (Or.inl rfl) (by decide)
  have h3 := C6_wait_for_edge_behaviour.2.2.1 inState 4 RISING none 0 true
    (by decide) (by decide) (by decide) (by decide) (by decide) (by decide)
    (Or.inl rfl) (by decide)
  have h4 := C6_wait_for_edge_behaviour.2.2.2 watchedState1 4 FALLING none 100 true alert4
    (by decide) (by decide) (by decide) (by decide) (by decide) (by decide)
    (by decide) (by decide) (by decide) (Or.inl rfl) (by decide)
    (Or.inl (by decide))
  exact ⟨h1.1, h1.2, h2.1, h2.2, h3, h4⟩

end RpiLgpio
